import Mathlib

/-!
Shallow embedding of the simulation core of `src/main.rs` (a terminal
gift-card trading game).  Rust `u32`/`u8` values are modelled as `Nat`;
wherever the source performs an unchecked machine addition or
multiplication whose overflow could matter we wrap explicitly with
`% 2^32` (`u32add`, `u32mul`) or `% 2^256`-style wrapping for `u8`
(`u8wrap`).  All guarded subtractions in the source (`if x > 0 { x -= 1 }`)
map to `Nat` subtraction on the guarded branch, which is exact there.
Rust `f32` arithmetic on the fixed decimal multiplier tables is modelled
over `ℚ`; `as u32` casts of non-negative values are truncation toward
zero (`ratToU32`), and `f32::round` on the positive values that occur is
rounding half away from zero, which agrees with `round` on `ℚ` there.
Strings are built by concatenation mirroring the `format!` calls.
-/

namespace GiftCardEmpire

/-- Wrapping `u32` addition (`x + y` on Rust `u32`). -/
def u32add (x y : ℕ) : ℕ := (x + y) % 4294967296

/-- Wrapping `u32` multiplication (`x * y` on Rust `u32`). -/
def u32mul (x y : ℕ) : ℕ := (x * y) % 4294967296

/-- Wrapping `u32` subtraction (`x - y` on Rust `u32`). -/
def u32sub (x y : ℕ) : ℕ := (x + 4294967296 - y % 4294967296) % 4294967296

/-- Wrapping `u8` value (`x` reduced to the `u8` range). -/
def u8wrap (x : ℕ) : ℕ := x % 256

/-- Rust `as u32` on a non-negative `f32`: truncation toward zero
(negative values saturate to 0, matched by `Int.toNat`). -/
def ratToU32 (q : ℚ) : ℕ := (⌊q⌋).toNat

/-- Rust `f32::round` then `as u32` for the non-negative prices that occur:
round half away from zero, which on non-negatives equals `round`. -/
def ratRoundToU32 (q : ℚ) : ℕ := (round q).toNat

/-- `activities.insert(0, msg)` followed by
`if activities.len() > 10 { activities.truncate(10) }` — the activity-log
push used throughout the source. -/
def logPush (msg : String) (acts : List String) : List String :=
  let l := msg :: acts
  if l.length > 10 then l.take 10 else l

/-- `GiftCard` (src/main.rs:117). -/
structure GiftCard where
  retailer : String
  denomination : ℕ
  purchase_price : ℕ
  days_until_expiration : ℕ
  deriving DecidableEq

/-- `InventoryItem` (src/main.rs:156). -/
structure InventoryItem where
  card : GiftCard
  quantity : ℕ
  deriving DecidableEq

/-- `InventoryItem::total_cost` (src/main.rs:170). -/
def InventoryItem.total_cost (it : InventoryItem) : ℕ :=
  u32mul it.card.purchase_price it.quantity

/-- `OrderPriority` (src/main.rs:188). -/
inductive OrderPriority where
  | low
  | medium
  | high
  deriving DecidableEq

/-- `CustomerOrder` (src/main.rs:176). -/
structure CustomerOrder where
  id : ℕ
  customer_name : String
  retailer : String
  denomination : ℕ
  quantity : ℕ
  offered_price_per_card : ℕ
  deadline_days : ℕ
  priority : OrderPriority
  deriving DecidableEq

/-- `CustomerOrder::total_offered` (src/main.rs:218). -/
def CustomerOrder.total_offered (o : CustomerOrder) : ℕ :=
  u32mul o.offered_price_per_card o.quantity

/-- `CustomerOrder::is_expired` (src/main.rs:222). -/
def CustomerOrder.is_expired (o : CustomerOrder) : Bool :=
  o.deadline_days = 0

/-- `Season` (src/main.rs:241). -/
inductive Season where
  | spring
  | summer
  | fall
  | winter
  deriving DecidableEq

/-- `Season::from_day` (src/main.rs:504).  The source computes
`(day - 1) % 360` on `u32`; `day` is at least 1 in every reachable state,
and for `day = 0` the wrapping subtraction gives `4294967295 % 360 = 15`,
still Spring, so plain truncated subtraction is faithful. -/
def Season.from_day (day : ℕ) : Season :=
  let season_day := (day - 1) % 360
  if season_day ≤ 89 then Season.spring
  else if season_day ≤ 179 then Season.summer
  else if season_day ≤ 269 then Season.fall
  else Season.winter

/-- `Season::display` (src/main.rs:516). -/
def Season.display : Season → String
  | Season.spring => "Spring"
  | Season.summer => "Summer"
  | Season.fall => "Fall"
  | Season.winter => "Winter"

/-- `Season::demand_modifier` (src/main.rs:525). -/
def Season.demand_modifier : Season → ℚ
  | Season.spring => 1
  | Season.summer => 11/10
  | Season.fall => 9/10
  | Season.winter => 14/10

/-- `Season::retailer_bonus` (src/main.rs:534). -/
def Season.retailer_bonus (s : Season) (retailer : String) : ℚ :=
  match s, retailer with
  | Season.summer, "Target" => 12/10
  | Season.summer, "Walmart" => 11/10
  | Season.fall, "iTunes" => 13/10
  | Season.fall, "Amazon" => 12/10
  | Season.winter, "Amazon" => 15/10
  | Season.winter, "Starbucks" => 13/10
  | Season.winter, "iTunes" => 14/10
  | Season.winter, _ => 12/10
  | _, _ => 1

/-- `MarketEvent` (src/main.rs:249). -/
structure MarketEvent where
  name : String
  description : String
  retailer_affected : Option String
  price_multiplier : ℚ
  demand_multiplier : ℚ
  duration_days : ℕ
  remaining_days : ℕ
  deriving DecidableEq

/-- `MarketEvent::new` (src/main.rs:550). -/
def MarketEvent.new (name description : String) (retailer : Option String)
    (price_mult demand_mult : ℚ) (duration : ℕ) : MarketEvent :=
  { name := name
    description := description
    retailer_affected := retailer
    price_multiplier := price_mult
    demand_multiplier := demand_mult
    duration_days := duration
    remaining_days := duration }

/-- `MarketEvent::is_expired` (src/main.rs:562). -/
def MarketEvent.is_expired (e : MarketEvent) : Bool :=
  e.remaining_days = 0

/-- `MarketEvent::affects_retailer` (src/main.rs:566). -/
def MarketEvent.affects_retailer (e : MarketEvent) (retailer : String) : Bool :=
  match e.retailer_affected with
  | none => true
  | some r => r = retailer

/-- `MarketConditions` (src/main.rs:260). -/
structure MarketConditions where
  current_season : Season
  active_events : List MarketEvent
  base_demand_modifier : ℚ
  next_event_in_days : ℕ
  deriving DecidableEq

/-- `MarketConditions::new` (src/main.rs:572). -/
def MarketConditions.new : MarketConditions :=
  { current_season := Season.spring
    active_events := []
    base_demand_modifier := 1
    next_event_in_days := 3 + (1 % 7) }

/-- `MarketConditions::update_season` (src/main.rs:581). -/
def MarketConditions.update_season (mc : MarketConditions) (day : ℕ) : MarketConditions :=
  let new_season := Season.from_day day
  if mc.current_season = new_season then mc
  else { mc with current_season := new_season
                 base_demand_modifier := new_season.demand_modifier }

/-- The `"📈 Market event '{}' has ended"` log line (src/main.rs:601). -/
def marketEventEndedLine (name : String) : String :=
  "📈 Market event '" ++ name ++ "' has ended"

/-- The `retain_mut` loop aging market events (src/main.rs:596-604):
events with positive remaining duration are decremented and kept, the
others are dropped with an "ended" line inserted at the front of the log. -/
def ageMarketEvents : List MarketEvent → List String → List MarketEvent × List String
  | [], acts => ([], acts)
  | e :: rest, acts =>
    if 0 < e.remaining_days then
      let (es, acts') := ageMarketEvents rest acts
      ({ e with remaining_days := e.remaining_days - 1 } :: es, acts')
    else
      ageMarketEvents rest (marketEventEndedLine e.name :: acts)

/-- The 8-entry market-event palette keyed by `day % 8`
(`MarketConditions::generate_random_event`, src/main.rs:615-683). -/
def marketEventForDay (day : ℕ) : MarketEvent :=
  match day % 8 with
  | 0 => MarketEvent.new "Tech Surge"
      "New gadget releases drive tech gift card demand" (some "iTunes") (9/10) (15/10) 4
  | 1 => MarketEvent.new "Coffee Festival"
      "Local coffee festival increases Starbucks popularity" (some "Starbucks") (11/10) (18/10) 3
  | 2 => MarketEvent.new "Supply Chain Issues"
      "Logistics problems affect all retailers" none (13/10) (7/10) 5
  | 3 => MarketEvent.new "Amazon Prime Day"
      "Special Amazon promotion increases demand" (some "Amazon") (85/100) 2 2
  | 4 => MarketEvent.new "Back to School"
      "Students need supplies, Target benefits" (some "Target") (105/100) (14/10) 7
  | 5 => MarketEvent.new "Economic Downturn"
      "Customers tighten budgets, demand drops" none 1 (6/10) 6
  | 6 => MarketEvent.new "Walmart Expansion"
      "New Walmart stores increase accessibility" (some "Walmart") (95/100) (13/10) 4
  | _ => MarketEvent.new "Market Boom"
      "General economic growth benefits all retailers" none (9/10) (12/10) 5

/-- `MarketConditions::generate_random_event` (src/main.rs:615):
inserts the announcement line and pushes the palette event. -/
def MarketConditions.generate_random_event (mc : MarketConditions) (day : ℕ)
    (acts : List String) : MarketConditions × List String :=
  let event := marketEventForDay day
  ({ mc with active_events := mc.active_events ++ [event] },
   ("🎯 New market event: " ++ event.name) :: acts)

/-- `MarketConditions::process_daily_events` (src/main.rs:594). -/
def MarketConditions.process_daily_events (mc : MarketConditions) (day : ℕ)
    (acts : List String) : MarketConditions × List String :=
  let aged := ageMarketEvents mc.active_events acts
  let mc1 := { mc with active_events := aged.1 }
  if 0 < mc1.next_event_in_days then
    ({ mc1 with next_event_in_days := mc1.next_event_in_days - 1 }, aged.2)
  else
    let gen := mc1.generate_random_event day aged.2
    ({ gen.1 with next_event_in_days := 5 + day % 10 }, gen.2)

/-- `MarketConditions::get_price_multiplier` (src/main.rs:689). -/
def MarketConditions.get_price_multiplier (mc : MarketConditions) (retailer : String) : ℚ :=
  mc.active_events.foldl
    (fun m e => if e.affects_retailer retailer then m * e.price_multiplier else m)
    (1 * mc.current_season.retailer_bonus retailer)

/-- `MarketConditions::get_demand_multiplier` (src/main.rs:716). -/
def MarketConditions.get_demand_multiplier (mc : MarketConditions) (retailer : String) : ℚ :=
  mc.active_events.foldl
    (fun m e => if e.affects_retailer retailer then m * e.demand_multiplier else m)
    (mc.base_demand_modifier * mc.current_season.retailer_bonus retailer)

/-- `BusinessAnalytics` (src/main.rs:415). -/
structure BusinessAnalytics where
  total_revenue : ℕ
  total_purchases : ℕ
  orders_completed : ℕ
  orders_expired : ℕ
  best_day_revenue : ℕ
  cards_sold : ℕ
  cards_expired : ℕ
  daily_revenues : List ℕ
  profit_margins : List ℚ
  deriving DecidableEq

/-- `BusinessAnalytics::new` (src/main.rs:428). -/
def BusinessAnalytics.new : BusinessAnalytics :=
  { total_revenue := 0
    total_purchases := 0
    orders_completed := 0
    orders_expired := 0
    best_day_revenue := 0
    cards_sold := 0
    cards_expired := 0
    daily_revenues := [0]
    profit_margins := [] }

/-- `BusinessAnalytics::record_purchase` (src/main.rs:442). -/
def BusinessAnalytics.record_purchase (an : BusinessAnalytics) (amount : ℕ) :
    BusinessAnalytics :=
  { an with total_purchases := u32add an.total_purchases amount }

/-- `BusinessAnalytics::record_sale` (src/main.rs:446).  The daily-revenue
update mutates `daily_revenues.last_mut()`; `profit_margins` gets the margin
of this sale when revenue is positive. -/
def BusinessAnalytics.record_sale (an : BusinessAnalytics) (revenue cost cards_sold : ℕ) :
    BusinessAnalytics :=
  let an1 := { an with total_revenue := u32add an.total_revenue revenue
                       orders_completed := u32add an.orders_completed 1
                       cards_sold := u32add an.cards_sold cards_sold }
  let an2 :=
    if 0 < revenue then
      { an1 with profit_margins :=
          an1.profit_margins ++ [((revenue : ℚ) - (cost : ℚ)) / (revenue : ℚ) * 100] }
    else an1
  match an2.daily_revenues.getLast? with
  | none => an2
  | some today =>
    let today' := u32add today revenue
    { an2 with daily_revenues := an2.daily_revenues.dropLast ++ [today']
               best_day_revenue := max an2.best_day_revenue today' }

/-- `BusinessAnalytics::record_expired_order` (src/main.rs:464). -/
def BusinessAnalytics.record_expired_order (an : BusinessAnalytics) : BusinessAnalytics :=
  { an with orders_expired := u32add an.orders_expired 1 }

/-- `BusinessAnalytics::record_expired_cards` (src/main.rs:468). -/
def BusinessAnalytics.record_expired_cards (an : BusinessAnalytics) (count : ℕ) :
    BusinessAnalytics :=
  { an with cards_expired := u32add an.cards_expired count }

/-- `BusinessAnalytics::start_new_day` (src/main.rs:472). -/
def BusinessAnalytics.start_new_day (an : BusinessAnalytics) : BusinessAnalytics :=
  let dr := an.daily_revenues ++ [0]
  { an with daily_revenues := if 30 < dr.length then dr.drop 1 else dr }

/-- `AchievementType` (src/main.rs:268). -/
inductive AchievementType where
  | firstSale
  | earlyBird
  | entrepreneur
  | businessMogul
  | millionaire
  | perfectWeek
  | speedDemon
  | efficiency
  | marketMaster
  | legendaryStatus
  | customerFavorite
  | trustedSeller
  | winterWinner
  | seasonVeteran
  | eventSurvivor
  | collector
  | diversifiedPortfolio
  | quickTurnaround
  deriving DecidableEq

/-- `Achievement` (src/main.rs:299). -/
structure Achievement where
  achievement_type : AchievementType
  name : String
  description : String
  unlocked : Bool
  unlock_date : Option ℕ
  progress : ℕ
  target : ℕ
  reward_cash : ℕ
  deriving DecidableEq

/-- `Achievement::new` (src/main.rs:734). -/
def Achievement.new (achievement_type : AchievementType) (name description : String)
    (target reward : ℕ) : Achievement :=
  { achievement_type := achievement_type
    name := name
    description := description
    unlocked := false
    unlock_date := none
    progress := 0
    target := target
    reward_cash := reward }

/-- `Achievement::update_progress` (src/main.rs:747): overwrites the stored
progress unconditionally, and reports (and records) an unlock when the new
progress reaches the target.  Dead code in the source: no caller exists. -/
def Achievement.update_progress (a : Achievement) (new_progress : ℕ) : Achievement × Bool :=
  let a1 := { a with progress := new_progress }
  if a1.unlocked = false ∧ a1.target ≤ a1.progress then
    ({ a1 with unlocked := true }, true)
  else
    (a1, false)

/-- `Achievement::unlock` (src/main.rs:757). -/
def Achievement.unlock (a : Achievement) (day : ℕ) : Achievement :=
  if a.unlocked = false then
    { a with unlocked := true, unlock_date := some day }
  else a

/-- `AchievementTracker` (src/main.rs:311). -/
structure AchievementTracker where
  achievements : List Achievement
  total_unlocked : ℕ
  recent_unlock : Option String
  consecutive_perfect_days : ℕ
  consecutive_efficiency_days : ℕ
  orders_today : ℕ
  favorable_market_purchases : ℕ
  seasonal_winter_profit : ℤ
  seasons_survived : List Season
  events_survived : ℕ
  deriving DecidableEq

/-- The fixed 18-entry achievement catalog
(`AchievementTracker::initialize_achievements`, src/main.rs:792). -/
def initialAchievements : List Achievement :=
  [ Achievement.new AchievementType.firstSale "First Sale" "Complete your first customer order" 1 100,
    Achievement.new AchievementType.earlyBird "Early Bird" "Complete your first 10 orders" 10 500,
    Achievement.new AchievementType.entrepreneur "Entrepreneur" "Accumulate $10,000 in cash" 10000 1000,
    Achievement.new AchievementType.businessMogul "Business Mogul" "Accumulate $50,000 in cash" 50000 5000,
    Achievement.new AchievementType.millionaire "Millionaire" "Accumulate $1,000,000 in cash" 1000000 50000,
    Achievement.new AchievementType.perfectWeek "Perfect Week" "7 consecutive days with 100% order completion" 7 2000,
    Achievement.new AchievementType.speedDemon "Speed Demon" "Fulfill 5 orders in a single day" 5 1500,
    Achievement.new AchievementType.efficiency "Efficiency Expert" "Maintain 90%+ success rate for 30 days" 30 3000,
    Achievement.new AchievementType.marketMaster "Market Master" "Make purchases during 5 favorable market events" 5 2500,
    Achievement.new AchievementType.legendaryStatus "Legendary Status" "Reach maximum 5-star reputation" 5 2000,
    Achievement.new AchievementType.customerFavorite "Customer Favorite" "Complete 100 customer orders" 100 3000,
    Achievement.new AchievementType.trustedSeller "Trusted Seller" "Complete 500 customer orders" 500 10000,
    Achievement.new AchievementType.winterWinner "Winter Winner" "Earn $5,000 profit during Winter season" 5000 2000,
    Achievement.new AchievementType.seasonVeteran "Season Veteran" "Experience all 4 seasons" 4 3000,
    Achievement.new AchievementType.eventSurvivor "Event Survivor" "Survive 10 market events" 10 2500,
    Achievement.new AchievementType.collector "Collector" "Own 100+ gift cards simultaneously" 100 2000,
    Achievement.new AchievementType.diversifiedPortfolio "Diversified Portfolio" "Own cards from all 5 retailers" 5 1000,
    Achievement.new AchievementType.quickTurnaround "Quick Turnaround" "Sell inventory within 3 days of purchase" 1 1500 ]

/-- `AchievementTracker::new` (src/main.rs:774). -/
def AchievementTracker.new : AchievementTracker :=
  { achievements := initialAchievements
    total_unlocked := 0
    recent_unlock := none
    consecutive_perfect_days := 0
    consecutive_efficiency_days := 0
    orders_today := 0
    favorable_market_purchases := 0
    seasonal_winter_profit := 0
    seasons_survived := []
    events_survived := 0 }

/-- The `iter_mut().find(|a| a.achievement_type == t && !a.unlocked)` body of
`check_and_unlock` (src/main.rs:933): updates the first locked achievement of
the given type, returning the updated list and the newly unlocked
achievement when the passed progress reaches its target. -/
def checkUnlockFirst (t : AchievementType) (progress day : ℕ) :
    List Achievement → List Achievement × Option Achievement
  | [] => ([], none)
  | a :: rest =>
    if a.achievement_type = t ∧ a.unlocked = false then
      let a1 := { a with progress := max a.progress progress }
      if a1.target ≤ progress then
        let a2 := { a1 with unlocked := true, unlock_date := some day }
        (a2 :: rest, some a2)
      else
        (a1 :: rest, none)
    else
      let (rest', r) := checkUnlockFirst t progress day rest
      (a :: rest', r)

/-- The `iter_mut().find(...)` + `unlock` pattern used by `record_order_completion`
and `process_daily_achievements` (src/main.rs:868, 898, 919): unlocks the first
locked achievement of the given type. -/
def unlockFirst (t : AchievementType) (day : ℕ) :
    List Achievement → List Achievement × Option String
  | [] => ([], none)
  | a :: rest =>
    if a.achievement_type = t ∧ a.unlocked = false then
      ({ a with unlocked := true, unlock_date := some day } :: rest, some a.name)
    else
      let (rest', r) := unlockFirst t day rest
      (a :: rest', r)

/-- `AchievementTracker::check_and_unlock` (src/main.rs:933). -/
def AchievementTracker.check_and_unlock (tr : AchievementTracker) (t : AchievementType)
    (progress day : ℕ) (acts : List String) : AchievementTracker × List String :=
  let r := checkUnlockFirst t progress day tr.achievements
  match r.2 with
  | none => ({ tr with achievements := r.1 }, acts)
  | some a2 =>
    ({ tr with achievements := r.1
               total_unlocked := u32add tr.total_unlocked 1
               recent_unlock := some a2.name },
     ("🏆 Achievement Unlocked: " ++ a2.name ++ " (+$" ++ toString a2.reward_cash ++ ")") :: acts)

/-- `AchievementTracker::check_cash_achievements` (src/main.rs:824). -/
def AchievementTracker.check_cash_achievements (tr : AchievementTracker) (cash day : ℕ)
    (acts : List String) : AchievementTracker × List String :=
  let s1 := tr.check_and_unlock AchievementType.entrepreneur cash day acts
  let s2 := s1.1.check_and_unlock AchievementType.businessMogul cash day s1.2
  s2.1.check_and_unlock AchievementType.millionaire cash day s2.2

/-- `AchievementTracker::check_order_achievements` (src/main.rs:830). -/
def AchievementTracker.check_order_achievements (tr : AchievementTracker)
    (total_orders reputation day : ℕ) (acts : List String) :
    AchievementTracker × List String :=
  let s1 := tr.check_and_unlock AchievementType.firstSale total_orders day acts
  let s2 := s1.1.check_and_unlock AchievementType.earlyBird total_orders day s1.2
  let s3 := s2.1.check_and_unlock AchievementType.customerFavorite total_orders day s2.2
  let s4 := s3.1.check_and_unlock AchievementType.trustedSeller total_orders day s3.2
  s4.1.check_and_unlock AchievementType.legendaryStatus reputation day s4.2

/-- `AchievementTracker::check_inventory_achievements` (src/main.rs:838);
the `HashSet` of retailer names is modelled by `dedup.length`, which equals
the set's cardinality. -/
def AchievementTracker.check_inventory_achievements (tr : AchievementTracker)
    (inventory : List InventoryItem) (day : ℕ) (acts : List String) :
    AchievementTracker × List String :=
  let total_cards := (inventory.map (fun it => it.quantity)).sum
  let s1 := tr.check_and_unlock AchievementType.collector total_cards day acts
  let retailers := (inventory.map (fun it => it.card.retailer)).dedup.length
  s1.1.check_and_unlock AchievementType.diversifiedPortfolio retailers day s1.2

/-- `AchievementTracker::check_seasonal_achievements` (src/main.rs:850). -/
def AchievementTracker.check_seasonal_achievements (tr : AchievementTracker)
    (season : Season) (winter_profit : ℤ) (day : ℕ) (acts : List String) :
    AchievementTracker × List String :=
  let tr0 := if season ∈ tr.seasons_survived then tr
             else { tr with seasons_survived := tr.seasons_survived ++ [season] }
  let s1 := tr0.check_and_unlock AchievementType.seasonVeteran
      tr0.seasons_survived.length day acts
  if season = Season.winter ∧ 5000 ≤ winter_profit then
    s1.1.check_and_unlock AchievementType.winterWinner winter_profit.toNat day s1.2
  else
    s1

/-- The `if let Some(achievement) = iter_mut().find(...)` + `unlock` block
shared by `record_order_completion` and `process_daily_achievements`
(src/main.rs:868-874, 898-904, 919-925). -/
def AchievementTracker.unlockDirect (tr : AchievementTracker) (t : AchievementType)
    (day : ℕ) : AchievementTracker :=
  let u := unlockFirst t day tr.achievements
  match u.2 with
  | some name =>
    { tr with achievements := u.1
              total_unlocked := u32add tr.total_unlocked 1
              recent_unlock := some name }
  | none => tr

/-- `AchievementTracker::record_order_completion` (src/main.rs:863). -/
def AchievementTracker.record_order_completion (tr : AchievementTracker) (day : ℕ) :
    AchievementTracker :=
  let tr1 := { tr with orders_today := u32add tr.orders_today 1 }
  if 5 ≤ tr1.orders_today then tr1.unlockDirect AchievementType.speedDemon day
  else tr1

/-- `AchievementTracker::record_market_purchase` (src/main.rs:877). -/
def AchievementTracker.record_market_purchase (tr : AchievementTracker)
    (price_multiplier : ℚ) (day : ℕ) (acts : List String) :
    AchievementTracker × List String :=
  if price_multiplier ≤ 9/10 then
    let tr1 := { tr with favorable_market_purchases := u32add tr.favorable_market_purchases 1 }
    tr1.check_and_unlock AchievementType.marketMaster tr1.favorable_market_purchases day acts
  else (tr, acts)

/-- The perfect-day half of `process_daily_achievements` (src/main.rs:886-904). -/
def AchievementTracker.processDailyPerfect (tr : AchievementTracker)
    (orders_completed_today orders_expired_today day : ℕ) : AchievementTracker :=
  let tr1 := { tr with orders_today := 0 }
  let tr2 :=
    if orders_expired_today = 0 ∧ 0 < orders_completed_today then
      { tr1 with consecutive_perfect_days := u32add tr1.consecutive_perfect_days 1 }
    else
      { tr1 with consecutive_perfect_days := 0 }
  if 7 ≤ tr2.consecutive_perfect_days then
    tr2.unlockDirect AchievementType.perfectWeek day
  else tr2

/-- The efficiency half of `process_daily_achievements` (src/main.rs:906-925). -/
def AchievementTracker.processDailyEfficiency (tr : AchievementTracker)
    (analytics : BusinessAnalytics) (day : ℕ) : AchievementTracker :=
  let total_orders := u32add analytics.orders_completed analytics.orders_expired
  let tr4 :=
    if 0 < total_orders then
      if (9 : ℚ)/10 ≤ (analytics.orders_completed : ℚ) / (total_orders : ℚ) then
        { tr with consecutive_efficiency_days := u32add tr.consecutive_efficiency_days 1 }
      else
        { tr with consecutive_efficiency_days := 0 }
    else tr
  if 30 ≤ tr4.consecutive_efficiency_days then
    tr4.unlockDirect AchievementType.efficiency day
  else tr4

/-- `AchievementTracker::process_daily_achievements` (src/main.rs:885). -/
def AchievementTracker.process_daily_achievements (tr : AchievementTracker)
    (orders_completed_today orders_expired_today : ℕ)
    (analytics : BusinessAnalytics) (day : ℕ) :
    AchievementTracker :=
  (tr.processDailyPerfect orders_completed_today orders_expired_today day).processDailyEfficiency
    analytics day

/-- `AchievementTracker::record_event_survival` (src/main.rs:928). -/
def AchievementTracker.record_event_survival (tr : AchievementTracker) (day : ℕ)
    (acts : List String) : AchievementTracker × List String :=
  let tr1 := { tr with events_survived := u32add tr.events_survived 1 }
  tr1.check_and_unlock AchievementType.eventSurvivor tr1.events_survived day acts

/-- `RandomEventType` (src/main.rs:326). -/
inductive RandomEventType where
  | loyalCustomer
  | supplierDiscount
  | mediaAttention
  | luckyFind
  | techGlitch
  | cardTheft
  | customerComplaint
  | supplierIssue
  | marketCrash
  | regulationChange
  | businessOffer
  | charityRequest
  | inventoryAudit
  | competitorMeeting
  | customerSurvey
  deriving DecidableEq

/-- `TempModifier` (src/main.rs:376). -/
structure TempModifier where
  name : String
  description : String
  price_multiplier : ℚ
  demand_multiplier : ℚ
  reputation_protection : Bool
  remaining_days : ℕ
  deriving DecidableEq

/-- `TempModifier::age_day` (src/main.rs:386). -/
def TempModifier.age_day (m : TempModifier) : TempModifier :=
  if 0 < m.remaining_days then { m with remaining_days := m.remaining_days - 1 } else m

/-- `TempModifier::is_expired` (src/main.rs:392). -/
def TempModifier.is_expired (m : TempModifier) : Bool :=
  m.remaining_days = 0

/-- `RandomEvent` (src/main.rs:350).  `cash_impact` is `i32` and
`reputation_impact` is `i8`; both are modelled as `ℤ` (all values the
program stores are small). -/
structure RandomEvent where
  event_type : RandomEventType
  title : String
  description : String
  choice_a : Option String
  choice_b : Option String
  choice_c : Option String
  auto_resolve : Bool
  cash_impact : ℤ
  reputation_impact : ℤ
  inventory_impact : List (String × ℤ)
  duration_days : ℕ
  active : Bool
  deriving DecidableEq

/-- `RandomEvent::new_auto_event` (src/main.rs:973). -/
def RandomEvent.new_auto_event (event_type : RandomEventType) (title description : String)
    (cash reputation : ℤ) (duration : ℕ) : RandomEvent :=
  { event_type := event_type
    title := title
    description := description
    choice_a := none
    choice_b := none
    choice_c := none
    auto_resolve := true
    cash_impact := cash
    reputation_impact := reputation
    inventory_impact := []
    duration_days := duration
    active := true }

/-- `RandomEvent::new_choice_event` (src/main.rs:990). -/
def RandomEvent.new_choice_event (event_type : RandomEventType) (title description : String)
    (choice_a choice_b : String) (choice_c : Option String) : RandomEvent :=
  { event_type := event_type
    title := title
    description := description
    choice_a := some choice_a
    choice_b := some choice_b
    choice_c := choice_c
    auto_resolve := false
    cash_impact := 0
    reputation_impact := 0
    inventory_impact := []
    duration_days := 1
    active := true }

/-- `RandomEvent::apply_choice` (src/main.rs:1007): a lookup table keyed by
(event type, choice index) that overwrites the event's own impact fields and
returns `(cash, reputation, new temp modifiers)`; unmapped combinations hit
the default arm, which zeroes the impacts. -/
def RandomEvent.apply_choice (e : RandomEvent) (choice : ℕ) :
    RandomEvent × (ℤ × ℤ × List TempModifier) :=
  match e.event_type, choice with
  | RandomEventType.businessOffer, 0 =>
    let e' := { e with cash_impact := -1000, reputation_impact := 0 }
    (e', (-1000, 0,
      [{ name := "Business Partnership"
         description := "10% discount on purchases"
         price_multiplier := 9/10
         demand_multiplier := 1
         reputation_protection := false
         remaining_days := 14 }]))
  | RandomEventType.businessOffer, 1 =>
    let e' := { e with cash_impact := 0, reputation_impact := 1 }
    (e', (0, 1, []))
  | RandomEventType.charityRequest, 0 =>
    let e' := { e with cash_impact := -500, reputation_impact := 2 }
    (e', (-500, 2, []))
  | RandomEventType.charityRequest, 1 =>
    let e' := { e with cash_impact := 0, reputation_impact := 1,
                       inventory_impact := e.inventory_impact ++ [("Amazon", -2)] }
    (e', (0, 1, []))
  | RandomEventType.charityRequest, 2 =>
    let e' := { e with cash_impact := 0, reputation_impact := -1 }
    (e', (0, -1, []))
  | RandomEventType.competitorMeeting, 0 =>
    let e' := { e with cash_impact := 0, reputation_impact := 0 }
    (e', (0, 0,
      [{ name := "Market Collaboration"
         description := "Increased customer demand"
         price_multiplier := 1
         demand_multiplier := 13/10
         reputation_protection := false
         remaining_days := 10 }]))
  | RandomEventType.competitorMeeting, 1 =>
    let e' := { e with cash_impact := -200, reputation_impact := 0 }
    (e', (-200, 0,
      [{ name := "Price War"
         description := "Cheaper purchases but lower demand"
         price_multiplier := 85/100
         demand_multiplier := 8/10
         reputation_protection := false
         remaining_days := 7 }]))
  | _, _ =>
    let e' := { e with cash_impact := 0, reputation_impact := 0 }
    (e', (0, 0, []))

/-- `RandomEventManager` (src/main.rs:366). -/
structure RandomEventManager where
  active_event : Option RandomEvent
  next_event_in_days : ℕ
  event_history : List String
  player_choice_pending : Bool
  choice_deadline : ℕ
  temp_modifiers : List TempModifier
  deriving DecidableEq

/-- `RandomEventManager::new` (src/main.rs:1104). -/
def RandomEventManager.new : RandomEventManager :=
  { active_event := none
    next_event_in_days := 3 + (1 % 5)
    event_history := []
    player_choice_pending := false
    choice_deadline := 0
    temp_modifiers := [] }

/-- The 15-entry narrative-event palette keyed by `day % 15`
(`RandomEventManager::generate_random_event`, src/main.rs:1166-1290). -/
def randomEventForDay (day : ℕ) : RandomEvent :=
  match day % 15 with
  | 0 => RandomEvent.new_auto_event RandomEventType.loyalCustomer
      "Loyal Customer Returns"
      "A satisfied customer wants to buy $2000 worth of gift cards at premium prices!"
      2000 1 1
  | 1 => RandomEvent.new_auto_event RandomEventType.supplierDiscount
      "Supplier Discount"
      "Your supplier offers 15% off your next 3 purchases due to good relationship!"
      0 0 1
  | 2 => RandomEvent.new_auto_event RandomEventType.mediaAttention
      "Positive Media Coverage"
      "Local news features your business! Reputation increases and more customers arrive."
      500 1 3
  | 3 => RandomEvent.new_auto_event RandomEventType.luckyFind
      "Inventory Audit Bonus"
      "During inventory count, you discover some cards are worth more than expected!"
      800 0 1
  | 4 => RandomEvent.new_auto_event RandomEventType.techGlitch
      "Competitor System Down"
      "Major online competitor experiences technical issues. Customers flock to you!"
      0 0 2
  | 5 => RandomEvent.new_auto_event RandomEventType.cardTheft
      "Security Incident"
      "Unfortunately, some inventory was stolen. Insurance covers part of the loss."
      (-300) (-1) 1
  | 6 => RandomEvent.new_auto_event RandomEventType.customerComplaint
      "Customer Complaint"
      "An unsatisfied customer posts negative reviews. You compensate to maintain reputation."
      (-400) (-1) 1
  | 7 => RandomEvent.new_auto_event RandomEventType.supplierIssue
      "Supplier Price Increase"
      "Your main supplier raises prices due to increased demand. Costs go up temporarily."
      0 0 5
  | 8 => RandomEvent.new_auto_event RandomEventType.marketCrash
      "Market Downturn"
      "Economic uncertainty affects gift card values. Customer demand drops temporarily."
      0 0 4
  | 9 => RandomEvent.new_auto_event RandomEventType.regulationChange
      "New Regulations"
      "Government introduces new gift card regulations. Compliance costs required."
      (-600) 0 1
  | 10 => RandomEvent.new_choice_event RandomEventType.businessOffer
      "Partnership Proposal"
      "Another gift card business proposes a partnership. Split costs but share profits."
      "Accept partnership (-$1000, get purchase discount)"
      "Decline and stay independent (+reputation)"
      none
  | 11 => RandomEvent.new_choice_event RandomEventType.charityRequest
      "Charity Fundraiser"
      "Local charity asks for donation. Good for reputation but costs money or inventory."
      "Donate $500 cash (++reputation)"
      "Donate 2 Amazon cards (+reputation)"
      (some "Politely decline (-reputation)")
  | 12 => RandomEvent.new_auto_event RandomEventType.inventoryAudit
      "Surprise Inventory Check"
      "Accounting review reveals minor discrepancies. Small penalty but processes improved."
      (-200) 0 1
  | 13 => RandomEvent.new_choice_event RandomEventType.competitorMeeting
      "Competitor Conference"
      "Industry meeting with other gift card sellers. Choose your approach."
      "Collaborate for mutual benefit (+demand)"
      "Compete aggressively (price war)"
      none
  | _ => RandomEvent.new_auto_event RandomEventType.customerSurvey
      "Customer Feedback Survey"
      "Customer survey results show satisfaction with your service. Reputation boost!"
      0 1 1

/-- `RandomEventManager::generate_random_event` (src/main.rs:1166):
builds the palette event, sets `next_event_in_days = 7 + (day % 14)`,
records the event in the capped history, and (for choice events) stores it
as the active event.  Returns the updated manager and the event. -/
def RandomEventManager.generate_random_event (mgr : RandomEventManager) (day : ℕ) :
    RandomEventManager × RandomEvent :=
  let event := randomEventForDay day
  let hist := mgr.event_history ++ ["Day " ++ toString day ++ ": " ++ event.title]
  let hist' := if 10 < hist.length then hist.drop 1 else hist
  let mgr1 := { mgr with next_event_in_days := 7 + day % 14, event_history := hist' }
  if event.auto_resolve then
    (mgr1, event)
  else
    ({ mgr1 with active_event := some event }, event)

/-- The `retain_mut` loop aging temp modifiers (src/main.rs:1117-1125). -/
def ageTempModifiers : List TempModifier → List String → List TempModifier × List String
  | [], acts => ([], acts)
  | m :: rest, acts =>
    let m1 := m.age_day
    if m1.is_expired then
      ageTempModifiers rest (("📅 " ++ m1.name ++ " effect has ended") :: acts)
    else
      let (ms, acts') := ageTempModifiers rest acts
      (m1 :: ms, acts')

/-- `RandomEventManager::process_daily_events` (src/main.rs:1115):
ages temp modifiers, force-resolves a pending choice event past its
deadline with choice 0 (discarding the returned cash/reputation), then
either decrements the countdown or fires a new event.  Note that for a
fired auto event the `(cash, reputation, ..)` of `apply_choice(0)` are
likewise discarded, and in both firing branches `next_event_in_days` is
overwritten with `3 + (day % 5)`.  Returns the choice event to surface,
if any. -/
def RandomEventManager.process_daily_events (mgr : RandomEventManager) (day : ℕ)
    (acts : List String) : RandomEventManager × List String × Option RandomEvent :=
  let aged := ageTempModifiers mgr.temp_modifiers acts
  let mgr1 := { mgr with temp_modifiers := aged.1 }
  let acts1 := aged.2
  let step2 : RandomEventManager × List String :=
    if mgr1.player_choice_pending ∧ mgr1.choice_deadline ≤ day then
      match mgr1.active_event with
      | some event =>
        let modifiers := (event.apply_choice 0).2.2.2
        ({ mgr1 with temp_modifiers := mgr1.temp_modifiers ++ modifiers
                     player_choice_pending := false
                     active_event := none },
         ("⏰ " ++ event.title ++ " auto-resolved (no choice made)") :: acts1)
      | none => (mgr1, acts1)
    else (mgr1, acts1)
  let mgr2 := step2.1
  let acts2 := step2.2
  if mgr2.active_event = none ∧ 0 < mgr2.next_event_in_days then
    ({ mgr2 with next_event_in_days := mgr2.next_event_in_days - 1 }, acts2, none)
  else if mgr2.active_event = none ∧ mgr2.next_event_in_days = 0 then
    let gen := mgr2.generate_random_event day
    let mgr3 := gen.1
    let new_event := gen.2
    let acts3 := ("🎲 Random event: " ++ new_event.title) :: acts2
    if new_event.auto_resolve then
      let modifiers := (new_event.apply_choice 0).2.2.2
      ({ mgr3 with temp_modifiers := mgr3.temp_modifiers ++ modifiers
                   next_event_in_days := 3 + day % 5 },
       acts3, none)
    else
      ({ mgr3 with player_choice_pending := true
                   choice_deadline := day + 2
                   next_event_in_days := 3 + day % 5 },
       acts3, some new_event)
  else
    (mgr2, acts2, none)

/-- `RandomEventManager::make_choice` (src/main.rs:1312). -/
def RandomEventManager.make_choice (mgr : RandomEventManager) (choice : ℕ) :
    RandomEventManager × Option (ℤ × ℤ × List TempModifier) :=
  match mgr.active_event with
  | some event =>
    ({ mgr with player_choice_pending := false, active_event := none },
     some (event.apply_choice choice).2)
  | none => (mgr, none)

/-- `MarketConditions::get_price_multiplier_with_random_events` (src/main.rs:705). -/
def MarketConditions.get_price_multiplier_with_random_events (mc : MarketConditions)
    (retailer : String) (random_events : RandomEventManager) : ℚ :=
  random_events.temp_modifiers.foldl (fun m t => m * t.price_multiplier)
    (mc.get_price_multiplier retailer)

/-- `GameData` (src/main.rs:398).  `cash` is `u32`, `reputation`/`hour`/`minute`
are `u8` and `day` is `u32`; all are modelled as `ℕ` with explicit wrapping at
the unchecked arithmetic sites. -/
structure GameData where
  cash : ℕ
  reputation : ℕ
  day : ℕ
  hour : ℕ
  minute : ℕ
  recent_activities : List String
  inventory : List InventoryItem
  customer_orders : List CustomerOrder
  next_order_id : ℕ
  analytics : BusinessAnalytics
  market_conditions : MarketConditions
  achievements : AchievementTracker
  random_events : RandomEventManager
  deriving DecidableEq

/-- `GameData::can_afford` (src/main.rs:1547). -/
def GameData.can_afford (g : GameData) (cost : ℕ) : Bool :=
  cost ≤ g.cash

/-- `GameData::spend_money` (src/main.rs:1551). -/
def GameData.spend_money (g : GameData) (amount : ℕ) : GameData × Bool :=
  if g.can_afford amount then ({ g with cash := g.cash - amount }, true) else (g, false)

/-- `GameData::improve_reputation` (src/main.rs:1799). -/
def GameData.improve_reputation (g : GameData) (reason : String) : GameData :=
  if g.reputation < 5 then
    let message :=
      if reason = "order_fulfilled" then "⭐ Reputation improved for excellent service!"
      else if reason = "fast_fulfillment" then "⭐ Reputation boosted for lightning-fast delivery!"
      else "⭐ Reputation improved!"
    { g with reputation := g.reputation + 1
             recent_activities := logPush message g.recent_activities }
  else g

/-- `GameData::decrease_reputation` (src/main.rs:1814). -/
def GameData.decrease_reputation (g : GameData) (reason : String) : GameData :=
  if 1 < g.reputation then
    let message :=
      if reason = "order_expired" then
        "💔 Reputation damaged - customers disappointed by expired orders"
      else if reason = "slow_service" then "💔 Reputation declined due to slow service"
      else "💔 Reputation decreased!"
    { g with reputation := g.reputation - 1
             recent_activities := logPush message g.recent_activities }
  else g

/-- The fixed retailer/denomination catalog of `generate_random_order`
(src/main.rs:1562). -/
def availableCards : List (String × ℕ) :=
  [("Amazon", 25), ("Starbucks", 10), ("Target", 50), ("iTunes", 15), ("Walmart", 20)]

/-- The fixed customer-name list of `generate_random_order` (src/main.rs:1569). -/
def customerNames : List String :=
  ["Alice", "Bob", "Charlie", "Diana", "Eve", "Frank", "Grace", "Henry"]

/-- The reputation-keyed base discount table of `generate_random_order`
(src/main.rs:1582). -/
def orderDiscountPercentage (reputation : ℕ) : ℚ :=
  if reputation = 5 then 95/100
  else if reputation = 4 then 93/100
  else if reputation = 3 then 90/100
  else if reputation = 2 then 87/100
  else if reputation = 1 then 85/100
  else 85/100

/-- The demand adjustment of `generate_random_order` (src/main.rs:1593). -/
def orderDemandAdjustment (demand_multiplier : ℚ) : ℚ :=
  if 12/10 < demand_multiplier then 2/100
  else if demand_multiplier < 8/10 then -(3/100)
  else 0

/-- `(discount_percentage + demand_adjustment).clamp(0.80, 0.98)`
(src/main.rs:1601); Rust `clamp` returns `min` below the range and `max`
above it. -/
def orderFinalDiscount (reputation : ℕ) (demand_multiplier : ℚ) : ℚ :=
  let x := orderDiscountPercentage reputation + orderDemandAdjustment demand_multiplier
  if x < 8/10 then 8/10 else if 98/100 < x then 98/100 else x

/-- `GameData::generate_random_order` (src/main.rs:1560). -/
def GameData.generate_random_order (g : GameData) : GameData :=
  let card_idx := u32add g.day g.hour % 5
  let customer_idx := u32add g.next_order_id g.day % 8
  let pair := availableCards.getD card_idx ("", 0)
  let retailer := pair.1
  let denomination := pair.2
  let customer_name := customerNames.getD customer_idx ""
  let quantity := 1 + g.day % 5
  let demand_multiplier := g.market_conditions.get_demand_multiplier retailer
  let final_discount := orderFinalDiscount g.reputation demand_multiplier
  let offered_price := ratToU32 ((denomination : ℚ) * final_discount)
  let deadline_days := 2 + g.day % 5
  let priority :=
    if denomination + 8 ≤ offered_price then OrderPriority.high
    else if denomination + 5 ≤ offered_price then OrderPriority.medium
    else OrderPriority.low
  let order : CustomerOrder :=
    { id := g.next_order_id
      customer_name := customer_name
      retailer := retailer
      denomination := denomination
      quantity := quantity
      offered_price_per_card := offered_price
      deadline_days := deadline_days
      priority := priority }
  { g with customer_orders := g.customer_orders ++ [order]
           next_order_id := u32add g.next_order_id 1
           recent_activities := logPush
             ("📋 New order: " ++ customer_name ++ " wants " ++ toString quantity
               ++ " " ++ retailer ++ " $" ++ toString denomination ++ " cards")
             g.recent_activities }

/-- The order-aging map of `process_order_aging` (src/main.rs:1641-1645). -/
def GameData.agedOrders (g : GameData) : List CustomerOrder :=
  g.customer_orders.map
    (fun o => if 0 < o.deadline_days then { o with deadline_days := o.deadline_days - 1 } else o)

/-- The number of orders that expire in this aging pass (src/main.rs:1648-1656). -/
def GameData.expiredOrderCount (g : GameData) : ℕ :=
  (g.agedOrders.filter (fun o => o.is_expired)).length

/-- The expiration half of `process_order_aging` (src/main.rs:1639-1675):
age the orders, drop the expired ones, and when any expired record them in
analytics, log the count, and decrease reputation once per expired order. -/
def GameData.orderAgingStage (g : GameData) : GameData :=
  let g1 := { g with customer_orders := g.agedOrders.filter (fun o => !o.is_expired) }
  if 0 < g.expiredOrderCount then
    let gA := { g1 with
      analytics := BusinessAnalytics.record_expired_order^[g.expiredOrderCount] g1.analytics }
    let msg := "⏰ " ++ toString g.expiredOrderCount ++ " customer orders expired"
    let gB := { gA with recent_activities := logPush msg gA.recent_activities }
    (fun gg => GameData.decrease_reputation gg "order_expired")^[g.expiredOrderCount] gB
  else g1

/-- `GameData::process_order_aging` (src/main.rs:1639): the expiration pass
followed by the deterministic order-generation chance (src/main.rs:1677-1695). -/
def GameData.process_order_aging (g : GameData) : GameData :=
  let g2 := g.orderAgingStage
  let base_order_chance :=
    if g2.reputation = 5 then True
    else if g2.reputation = 4 then g2.day % 2 = 0
    else if g2.reputation = 3 then g2.day % 2 = 0
    else if g2.reputation = 2 then g2.day % 3 = 0
    else if g2.reputation = 1 then g2.day % 4 = 0
    else False
  let market_boost := 1 < g2.market_conditions.base_demand_modifier
  let extra_market_chance := market_boost ∧ g2.day % 2 = 1
  if base_order_chance ∨ extra_market_chance then g2.generate_random_order else g2

/-- The mathematical total of the matching-(retailer, denomination)
inventory quantities, before the `u32` accumulator wraps. -/
def matchingTotal (inv : List InventoryItem) (retailer : String) (denomination : ℕ) : ℕ :=
  ((inv.filter (fun it =>
      decide (it.card.retailer = retailer ∧ it.card.denomination = denomination))).map
    (fun it => it.quantity)).sum

/-- The `filter(...).map(|item| item.quantity).sum::<u32>()` expression of
`can_fulfill_order` (src/main.rs:1700-1705): the `u32` accumulation wraps,
i.e. the available total the program computes is the matching total
mod `2^32`. -/
def matchingQuantity (inv : List InventoryItem) (retailer : String) (denomination : ℕ) : ℕ :=
  matchingTotal inv retailer denomination % 4294967296

/-- `GameData::can_fulfill_order` (src/main.rs:1698). -/
def GameData.can_fulfill_order (g : GameData) (o : CustomerOrder) : Bool :=
  o.quantity ≤ matchingQuantity g.inventory o.retailer o.denomination

/-- The inventory-consumption loop of `fulfill_order` (src/main.rs:1728-1757):
walks the ledger, draining matching entries until the needed quantity is met;
fully drained entries are removed, a partially drained one keeps the rest. -/
def takeFromInventory (retailer : String) (denomination : ℕ) :
    ℕ → List InventoryItem → List InventoryItem
  | _, [] => []
  | needed, it :: rest =>
    if it.card.retailer = retailer ∧ it.card.denomination = denomination ∧ 0 < needed then
      let take := min needed it.quantity
      if take = it.quantity then
        takeFromInventory retailer denomination (needed - take) rest
      else
        { it with quantity := it.quantity - take } ::
          takeFromInventory retailer denomination (needed - take) rest
    else
      it :: takeFromInventory retailer denomination needed rest

/-- The state mutation of `fulfill_order`'s success path before the final
reputation bump (src/main.rs:1728-1786): consume the inventory, record the
sale, add the earnings to cash, run the achievement checks, remove the order
and push the success log line. -/
def GameData.fulfillSuccessBase (g : GameData) (order : CustomerOrder)
    (order_index : ℕ) : GameData :=
  let inv' := takeFromInventory order.retailer order.denomination order.quantity g.inventory
  let total_earnings := order.total_offered
  let cost_basis := u32mul order.quantity (u32sub order.denomination 5)
  let profit : ℤ := (total_earnings : ℤ) - (cost_basis : ℤ)
  let an1 := g.analytics.record_sale total_earnings cost_basis order.quantity
  let cash1 := u32add g.cash total_earnings
  let tr1 := g.achievements.record_order_completion g.day
  let s1 := tr1.check_order_achievements an1.orders_completed g.reputation
      g.day g.recent_activities
  let s2 := s1.1.check_cash_achievements cash1 g.day s1.2
  let orders' := g.customer_orders.eraseIdx order_index
  let acts3 := logPush
    ("✅ Completed order #" ++ toString order.id ++ ": " ++ toString order.quantity
      ++ " " ++ order.retailer ++ " $" ++ toString order.denomination
      ++ " cards for $" ++ toString total_earnings
      ++ " (profit: $" ++ toString profit ++ ")") s2.2
  { g with cash := cash1
           inventory := inv'
           customer_orders := orders'
           analytics := an1
           achievements := s2.1
           recent_activities := acts3 }

/-- `GameData::fulfill_order` (src/main.rs:1709). -/
def GameData.fulfill_order (g : GameData) (order_index : ℕ) : GameData × Bool :=
  match g.customer_orders[order_index]? with
  | none => (g, false)
  | some order =>
    if g.can_fulfill_order order = false then
      ({ g with recent_activities :=
          logPush ("❌ Cannot fulfill order #" ++ toString order.id
            ++ " - insufficient inventory") g.recent_activities },
       false)
    else
      let g1 := g.fulfillSuccessBase order order_index
      let g2 :=
        if (2 + g.day % 5) / 2 < order.deadline_days then
          g1.improve_reputation "fast_fulfillment"
        else
          g1.improve_reputation "order_fulfilled"
      (g2, true)

/-- `GameData::add_to_inventory` (src/main.rs:1532): merges into the first
entry with identical retailer, denomination and purchase price. -/
def addToInventoryList (card : GiftCard) (quantity : ℕ) :
    List InventoryItem → List InventoryItem
  | [] => [{ card := card, quantity := quantity }]
  | it :: rest =>
    if it.card.retailer = card.retailer ∧ it.card.denomination = card.denomination ∧
       it.card.purchase_price = card.purchase_price then
      { it with quantity := u32add it.quantity quantity } :: rest
    else
      it :: addToInventoryList card quantity rest

/-- `GameData::add_to_inventory` (src/main.rs:1532). -/
def GameData.add_to_inventory (g : GameData) (card : GiftCard) (quantity : ℕ) : GameData :=
  { g with inventory := addToInventoryList card quantity g.inventory }

/-- The inventory-aging map at the start of the daily tick
(src/main.rs:1424-1428). -/
def GameData.agedInventory (g : GameData) : List InventoryItem :=
  g.inventory.map (fun it =>
    if 0 < it.card.days_until_expiration then
      { it with card := { it.card with days_until_expiration := it.card.days_until_expiration - 1 } }
    else it)

/-- The `expired_count` accumulated by the tick's expiration sweep
(src/main.rs:1430-1442), a wrapping `u32` accumulation of quantities. -/
def GameData.tickExpiredCount (g : GameData) : ℕ :=
  (((g.agedInventory.filter (fun it => decide (it.card.days_until_expiration = 0))).map
    (fun it => it.quantity)).foldl u32add 0)

/-- The `expired_value` accumulated by the tick's expiration sweep
(src/main.rs:1430-1442). -/
def GameData.tickExpiredValue (g : GameData) : ℕ :=
  (((g.agedInventory.filter (fun it => decide (it.card.days_until_expiration = 0))).map
    InventoryItem.total_cost).foldl u32add 0)

/-- The first stage of the daily tick (src/main.rs:1423-1457): age the
inventory, drop expired lots, and record/log the loss when any expired. -/
def GameData.tickInventoryStage (g : GameData) : GameData :=
  let inv2 := g.agedInventory.filter (fun it => !decide (it.card.days_until_expiration = 0))
  let g1 := { g with inventory := inv2 }
  if 0 < g.tickExpiredCount then
    let msg := "❌ Lost " ++ toString g.tickExpiredCount ++ " cards worth $"
      ++ toString g.tickExpiredValue ++ " to expiration"
    { g1 with analytics := g1.analytics.record_expired_cards g.tickExpiredCount
              recent_activities := logPush msg g1.recent_activities }
  else g1

set_option maxHeartbeats 1000000 in
/-- `GameData::process_daily_events` (src/main.rs:1422): the daily tick
pipeline in source order. -/
def GameData.process_daily_events (g : GameData) : GameData :=
  let expired_count := g.tickExpiredCount
  let g3 := (g.tickInventoryStage).process_order_aging
  let g4 := { g3 with analytics := g3.analytics.start_new_day }
  let g5 := { g4 with market_conditions := g4.market_conditions.update_season g4.day }
  let sM := g5.market_conditions.process_daily_events g5.day g5.recent_activities
  let g6 := { g5 with market_conditions := sM.1, recent_activities := sM.2 }
  let tr1 := g6.achievements.process_daily_achievements 0 expired_count g6.analytics g6.day
  let s2 := tr1.check_cash_achievements g6.cash g6.day g6.recent_activities
  let s3 := s2.1.check_inventory_achievements g6.inventory g6.day s2.2
  let s4 := s3.1.check_seasonal_achievements g6.market_conditions.current_season
      s3.1.seasonal_winter_profit g6.day s3.2
  let sR := g6.random_events.process_daily_events g6.day s4.2
  let mgr'' := match sR.2.2 with
    | some ev => { sR.1 with active_event := some ev }
    | none => sR.1
  let g7 := { g6 with achievements := s4.1, random_events := mgr'', recent_activities := sR.2.1 }
  let dayMsg := "🌅 Day " ++ toString g7.day ++ " begins ("
    ++ g7.market_conditions.current_season.display ++ " season)"
  { g7 with recent_activities := logPush dayMsg g7.recent_activities }

/-- `GameData::advance_time` (src/main.rs:1406).  `minute`, `hour` and the
passed `minutes` are `u8`, so the first addition wraps at 256; `day` is `u32`. -/
def GameData.advance_time (g : GameData) (minutes : ℕ) : GameData :=
  let minute1 := u8wrap (g.minute + minutes)
  let hour1 := if 60 ≤ minute1 then u8wrap (g.hour + minute1 / 60) else g.hour
  let minute2 := if 60 ≤ minute1 then minute1 % 60 else minute1
  if 24 ≤ hour1 then
    let g1 := { g with day := u32add g.day (hour1 / 24), hour := hour1 % 24, minute := minute2 }
    g1.process_daily_events
  else
    { g with hour := hour1, minute := minute2 }

/-- The base market catalog of `App::purchase_from_market` (src/main.rs:1931):
(retailer, denomination, base cost, stock). -/
def baseMarketItems : List (String × ℕ × ℕ × ℕ) :=
  [("Amazon", 25, 20, 50), ("Starbucks", 10, 8, 30), ("Target", 50, 42, 15),
   ("iTunes", 15, 12, 25), ("Walmart", 20, 17, 40)]

/-- `App::purchase_from_market` (src/main.rs:1925), restricted to its effect
on the game state (screen handling and audio are presentation). -/
def GameData.purchase_from_market (g : GameData) (sel : ℕ) : GameData :=
  match baseMarketItems[sel]? with
  | none => g
  | some entry =>
    let retailer := entry.1
    let denomination := entry.2.1
    let base_cost := entry.2.2.1
    let mult := g.market_conditions.get_price_multiplier_with_random_events retailer
        g.random_events
    let cost := ratRoundToU32 ((base_cost : ℚ) * mult)
    if g.can_afford cost then
      let g1 := (g.spend_money cost).1
      let expiration_days := 30 + g1.day % 60
      let card : GiftCard :=
        { retailer := retailer, denomination := denomination,
          purchase_price := cost, days_until_expiration := expiration_days }
      let g2 := g1.add_to_inventory card 1
      let g3 := { g2 with analytics := g2.analytics.record_purchase cost }
      let mult2 := g3.market_conditions.get_price_multiplier_with_random_events retailer
          g3.random_events
      let sP := g3.achievements.record_market_purchase mult2 g3.day g3.recent_activities
      let g4 := { g3 with achievements := sP.1, recent_activities := sP.2 }
      let msg := "💰 Purchased " ++ retailer ++ " $" ++ toString denomination
        ++ " card for $" ++ toString cost
      { g4 with recent_activities := logPush msg g4.recent_activities }
    else
      let msg := "❌ Insufficient funds for " ++ retailer ++ " $"
        ++ toString denomination ++ " (need $" ++ toString cost ++ ")"
      { g with recent_activities := logPush msg g.recent_activities }

/-- `App::sell_inventory_item` (src/main.rs:2058), restricted to its effect
on the game state. -/
def GameData.sell_inventory_item (g : GameData) (sel : ℕ) : GameData :=
  if g.inventory.length = 0 then g
  else
    let inventory_index := min sel (g.inventory.length - 1)
    match g.inventory[inventory_index]? with
    | none => g
    | some item =>
      let market_value := ratToU32 ((item.card.denomination : ℚ) * (85/100))
      let total_value := u32mul market_value item.quantity
      let total_cost := u32mul item.card.purchase_price item.quantity
      let profit : ℤ := (total_value : ℤ) - (total_cost : ℤ)
      let g1 := { g with cash := u32add g.cash total_value
                         analytics := { g.analytics with
                           cards_sold := u32add g.analytics.cards_sold item.quantity
                           total_revenue := u32add g.analytics.total_revenue total_value } }
      let msg := "💰 Sold " ++ toString item.quantity ++ "x " ++ item.card.retailer
        ++ " $" ++ toString item.card.denomination ++ " cards for $"
        ++ toString total_value ++ " (" ++ (if 0 ≤ profit then "+" else "")
        ++ "$" ++ toString profit ++ " profit)"
      let g2 := { g1 with recent_activities := logPush msg g1.recent_activities }
      { g2 with inventory := g2.inventory.eraseIdx inventory_index }

/-- `App::handle_random_event_choice` (src/main.rs:2024), restricted to its
effect on the game state: applies the choice result with saturating cash
arithmetic and the `[1,5]` reputation clamps. -/
def GameData.handle_random_event_choice (g : GameData) (choice : ℕ) : GameData :=
  let mc := g.random_events.make_choice choice
  let mgr1 := mc.1
  match mc.2 with
  | none => { g with random_events := mgr1 }
  | some r =>
    let cash := r.1
    let reputation := r.2.1
    let modifiers := r.2.2
    let cash' :=
      if cash ≠ 0 then
        if 0 < cash then min (g.cash + cash.toNat) 4294967295
        else g.cash - (-cash).toNat
      else g.cash
    let rep' :=
      if reputation ≠ 0 then
        if 0 < reputation then min (min (g.reputation + reputation.toNat) 255) 5
        else max (g.reputation - (-reputation).toNat) 1
      else g.reputation
    let mgr2 := { mgr1 with temp_modifiers := mgr1.temp_modifiers ++ modifiers }
    { g with cash := cash'
             reputation := rep'
             random_events := mgr2
             recent_activities := logPush "✅ Made choice on random event" g.recent_activities }

/-- `GameData::new` (src/main.rs:1354): the initial state, including the two
initial order generations. -/
def GameData.new : GameData :=
  let g0 : GameData :=
    { cash := 5000
      reputation := 3
      day := 1
      hour := 9
      minute := 0
      recent_activities :=
        ["Welcome to Gift Card Empire!",
         "Starting with $5,000 capital",
         "Visit the Market to buy your first cards"]
      inventory :=
        [{ card := { retailer := "Amazon", denomination := 25, purchase_price := 20,
                     days_until_expiration := 45 }, quantity := 12 },
         { card := { retailer := "Target", denomination := 50, purchase_price := 42,
                     days_until_expiration := 30 }, quantity := 8 },
         { card := { retailer := "Starbucks", denomination := 10, purchase_price := 8,
                     days_until_expiration := 120 }, quantity := 15 },
         { card := { retailer := "iTunes", denomination := 15, purchase_price := 12,
                     days_until_expiration := 15 }, quantity := 3 },
         { card := { retailer := "Walmart", denomination := 20, purchase_price := 17,
                     days_until_expiration := 60 }, quantity := 6 }]
      customer_orders := []
      next_order_id := 1000
      analytics := BusinessAnalytics.new
      market_conditions := MarketConditions.new
      achievements := AchievementTracker.new
      random_events := RandomEventManager.new }
  (g0.generate_random_order).generate_random_order

/-- The operations a play session applies to the aggregate state: the clock
command, the daily tick and its order-aging stage, and the player commands
(fulfill, purchase, sell, resolve-choice). -/
inductive GameOp where
  | advance (minutes : ℕ)
  | tick
  | orderAging
  | fulfill (idx : ℕ)
  | purchase (sel : ℕ)
  | sell (sel : ℕ)
  | resolveChoice (choice : ℕ)

/-- Apply one operation to the game state. -/
def GameData.applyOp (g : GameData) : GameOp → GameData
  | GameOp.advance m => g.advance_time m
  | GameOp.tick => g.process_daily_events
  | GameOp.orderAging => g.process_order_aging
  | GameOp.fulfill i => (g.fulfill_order i).1
  | GameOp.purchase s => g.purchase_from_market s
  | GameOp.sell s => g.sell_inventory_item s
  | GameOp.resolveChoice c => g.handle_random_event_choice c

/-- Run a finite sequence of operations. -/
def GameData.runOps (g : GameData) (ops : List GameOp) : GameData :=
  ops.foldl GameData.applyOp g

/-- The achievement-progress update calls the program makes on the tracker. -/
inductive TrackerOp where
  | checkAndUnlock (t : AchievementType) (progress day : ℕ)
  | checkCash (cash day : ℕ)
  | checkOrders (total_orders reputation day : ℕ)
  | checkInventory (inventory : List InventoryItem) (day : ℕ)
  | checkSeasonal (season : Season) (winter_profit : ℤ) (day : ℕ)
  | recordOrderCompletion (day : ℕ)
  | recordMarketPurchase (mult : ℚ) (day : ℕ)
  | processDaily (completed expired : ℕ) (analytics : BusinessAnalytics) (day : ℕ)
  | recordEventSurvival (day : ℕ)

/-- Apply one tracker update (the activity log it may append is not part of
the tracker). -/
def AchievementTracker.applyOp (tr : AchievementTracker) : TrackerOp → AchievementTracker
  | TrackerOp.checkAndUnlock t p d => (tr.check_and_unlock t p d []).1
  | TrackerOp.checkCash c d => (tr.check_cash_achievements c d []).1
  | TrackerOp.checkOrders t r d => (tr.check_order_achievements t r d []).1
  | TrackerOp.checkInventory inv d => (tr.check_inventory_achievements inv d []).1
  | TrackerOp.checkSeasonal s w d => (tr.check_seasonal_achievements s w d []).1
  | TrackerOp.recordOrderCompletion d => tr.record_order_completion d
  | TrackerOp.recordMarketPurchase m d => (tr.record_market_purchase m d []).1
  | TrackerOp.processDaily c e an d => tr.process_daily_achievements c e an d
  | TrackerOp.recordEventSurvival d => (tr.record_event_survival d []).1

/-- Run a finite sequence of tracker updates. -/
def AchievementTracker.runOps (tr : AchievementTracker) (ops : List TrackerOp) :
    AchievementTracker :=
  ops.foldl AchievementTracker.applyOp tr

/-- The mathematical clock semantics `advance_time` is meant to implement:
carry all the added minutes into hours and all the resulting hours into
days. -/
def clockSpec (day hour minute m : ℕ) : ℕ × ℕ × ℕ :=
  let total := minute + m
  let hour2 := hour + total / 60
  (day + hour2 / 24, hour2 % 24, total % 60)

/-!
`save_game`/`load_game` (src/main.rs:1829) serialize the whole `GameData`
with `serde_json` derive and parse it back.  The byte-level medium is
external (spec §6); the serialization is modelled at the level of the JSON
document serde produces: structs become field-name-keyed objects in
declaration order, unit enum variants become their name strings, `Option`
becomes `null` or the value, `Vec`/`VecDeque` become arrays, tuples become
fixed-size arrays, integers become JSON integers and `f32` fields (already
modelled as `ℚ`) become JSON numbers carried exactly.
-/

/-- A JSON document. -/
inductive Json where
  | null
  | jbool (b : Bool)
  | jint (n : ℤ)
  | jrat (q : ℚ)
  | jstr (s : String)
  | jarr (xs : List Json)
  | jobj (fields : List (String × Json))

/-- Field lookup in a serialized object (serde matches fields by name). -/
def lookupField : List (String × Json) → String → Option Json
  | [], _ => none
  | (k', v) :: rest, k => if k' = k then some v else lookupField rest k

/-- Field lookup on a document. -/
def Json.getField (j : Json) (k : String) : Option Json :=
  match j with
  | Json.jobj fs => lookupField fs k
  | _ => none

/-- Decode an unsigned integer (`u8`/`u32` field). -/
def decodeNat (j : Json) : Option ℕ :=
  match j with
  | Json.jint n => if 0 ≤ n then some n.toNat else none
  | _ => none

/-- Decode a signed integer (`i8`/`i32` field). -/
def decodeInt (j : Json) : Option ℤ :=
  match j with
  | Json.jint n => some n
  | _ => none

/-- Decode an `f32` field (modelled exactly as `ℚ`). -/
def decodeRat (j : Json) : Option ℚ :=
  match j with
  | Json.jrat q => some q
  | _ => none

/-- Decode a string field. -/
def decodeStr (j : Json) : Option String :=
  match j with
  | Json.jstr s => some s
  | _ => none

/-- Decode a boolean field. -/
def decodeBool (j : Json) : Option Bool :=
  match j with
  | Json.jbool b => some b
  | _ => none

/-- Decode every element of an array, failing if any element fails. -/
def decodeListWith (d : Json → Option α) : List Json → Option (List α)
  | [] => some []
  | j :: rest =>
    match d j with
    | none => none
    | some x =>
      match decodeListWith d rest with
      | none => none
      | some xs => some (x :: xs)

/-- Decode an array field. -/
def decodeArr (d : Json → Option α) (j : Json) : Option (List α) :=
  match j with
  | Json.jarr xs => decodeListWith d xs
  | _ => none

/-- Decode an `Option` field (`null` or the value). -/
def decodeOptionWith (d : Json → Option α) : Json → Option (Option α)
  | Json.null => some none
  | j => (d j).map some

/-- Encode an `Option` field. -/
def encodeOptionWith (e : α → Json) : Option α → Json
  | none => Json.null
  | some x => e x

/-- Serialize `GiftCard`. -/
def GiftCard.toJson (c : GiftCard) : Json :=
  Json.jobj
    [("retailer", Json.jstr c.retailer),
     ("denomination", Json.jint c.denomination),
     ("purchase_price", Json.jint c.purchase_price),
     ("days_until_expiration", Json.jint c.days_until_expiration)]

/-- Deserialize `GiftCard`. -/
def GiftCard.fromJson (j : Json) : Option GiftCard := do
  let retailer ← j.getField "retailer" >>= decodeStr
  let denomination ← j.getField "denomination" >>= decodeNat
  let purchase_price ← j.getField "purchase_price" >>= decodeNat
  let days_until_expiration ← j.getField "days_until_expiration" >>= decodeNat
  some { retailer := retailer, denomination := denomination,
         purchase_price := purchase_price, days_until_expiration := days_until_expiration }

/-- Serialize `InventoryItem`. -/
def InventoryItem.toJson (it : InventoryItem) : Json :=
  Json.jobj [("card", it.card.toJson), ("quantity", Json.jint it.quantity)]

/-- Deserialize `InventoryItem`. -/
def InventoryItem.fromJson (j : Json) : Option InventoryItem := do
  let card ← j.getField "card" >>= GiftCard.fromJson
  let quantity ← j.getField "quantity" >>= decodeNat
  some { card := card, quantity := quantity }

/-- Serialize `OrderPriority` (unit enum variant → name string). -/
def OrderPriority.toJson : OrderPriority → Json
  | OrderPriority.low => Json.jstr "Low"
  | OrderPriority.medium => Json.jstr "Medium"
  | OrderPriority.high => Json.jstr "High"

/-- Deserialize `OrderPriority`. -/
def OrderPriority.fromJson (j : Json) : Option OrderPriority :=
  match j with
  | Json.jstr "Low" => some OrderPriority.low
  | Json.jstr "Medium" => some OrderPriority.medium
  | Json.jstr "High" => some OrderPriority.high
  | _ => none

/-- Serialize `CustomerOrder`. -/
def CustomerOrder.toJson (o : CustomerOrder) : Json :=
  Json.jobj
    [("id", Json.jint o.id),
     ("customer_name", Json.jstr o.customer_name),
     ("retailer", Json.jstr o.retailer),
     ("denomination", Json.jint o.denomination),
     ("quantity", Json.jint o.quantity),
     ("offered_price_per_card", Json.jint o.offered_price_per_card),
     ("deadline_days", Json.jint o.deadline_days),
     ("priority", o.priority.toJson)]

/-- Deserialize `CustomerOrder`. -/
def CustomerOrder.fromJson (j : Json) : Option CustomerOrder := do
  let id ← j.getField "id" >>= decodeNat
  let customer_name ← j.getField "customer_name" >>= decodeStr
  let retailer ← j.getField "retailer" >>= decodeStr
  let denomination ← j.getField "denomination" >>= decodeNat
  let quantity ← j.getField "quantity" >>= decodeNat
  let offered_price_per_card ← j.getField "offered_price_per_card" >>= decodeNat
  let deadline_days ← j.getField "deadline_days" >>= decodeNat
  let priority ← j.getField "priority" >>= OrderPriority.fromJson
  some { id := id, customer_name := customer_name, retailer := retailer,
         denomination := denomination, quantity := quantity,
         offered_price_per_card := offered_price_per_card,
         deadline_days := deadline_days, priority := priority }

/-- Serialize `Season`. -/
def Season.toJson : Season → Json
  | Season.spring => Json.jstr "Spring"
  | Season.summer => Json.jstr "Summer"
  | Season.fall => Json.jstr "Fall"
  | Season.winter => Json.jstr "Winter"

/-- Deserialize `Season`. -/
def Season.fromJson (j : Json) : Option Season :=
  match j with
  | Json.jstr "Spring" => some Season.spring
  | Json.jstr "Summer" => some Season.summer
  | Json.jstr "Fall" => some Season.fall
  | Json.jstr "Winter" => some Season.winter
  | _ => none

/-- Serialize `MarketEvent`. -/
def MarketEvent.toJson (e : MarketEvent) : Json :=
  Json.jobj
    [("name", Json.jstr e.name),
     ("description", Json.jstr e.description),
     ("retailer_affected", encodeOptionWith Json.jstr e.retailer_affected),
     ("price_multiplier", Json.jrat e.price_multiplier),
     ("demand_multiplier", Json.jrat e.demand_multiplier),
     ("duration_days", Json.jint e.duration_days),
     ("remaining_days", Json.jint e.remaining_days)]

/-- Deserialize `MarketEvent`. -/
def MarketEvent.fromJson (j : Json) : Option MarketEvent := do
  let name ← j.getField "name" >>= decodeStr
  let description ← j.getField "description" >>= decodeStr
  let retailer_affected ← j.getField "retailer_affected" >>= decodeOptionWith decodeStr
  let price_multiplier ← j.getField "price_multiplier" >>= decodeRat
  let demand_multiplier ← j.getField "demand_multiplier" >>= decodeRat
  let duration_days ← j.getField "duration_days" >>= decodeNat
  let remaining_days ← j.getField "remaining_days" >>= decodeNat
  some { name := name, description := description, retailer_affected := retailer_affected,
         price_multiplier := price_multiplier, demand_multiplier := demand_multiplier,
         duration_days := duration_days, remaining_days := remaining_days }

/-- Serialize `MarketConditions`. -/
def MarketConditions.toJson (mc : MarketConditions) : Json :=
  Json.jobj
    [("current_season", mc.current_season.toJson),
     ("active_events", Json.jarr (mc.active_events.map MarketEvent.toJson)),
     ("base_demand_modifier", Json.jrat mc.base_demand_modifier),
     ("next_event_in_days", Json.jint mc.next_event_in_days)]

/-- Deserialize `MarketConditions`. -/
def MarketConditions.fromJson (j : Json) : Option MarketConditions := do
  let current_season ← j.getField "current_season" >>= Season.fromJson
  let active_events ← j.getField "active_events" >>= decodeArr MarketEvent.fromJson
  let base_demand_modifier ← j.getField "base_demand_modifier" >>= decodeRat
  let next_event_in_days ← j.getField "next_event_in_days" >>= decodeNat
  some { current_season := current_season, active_events := active_events,
         base_demand_modifier := base_demand_modifier,
         next_event_in_days := next_event_in_days }

/-- Serialize `AchievementType`. -/
def AchievementType.toJson : AchievementType → Json
  | AchievementType.firstSale => Json.jstr "FirstSale"
  | AchievementType.earlyBird => Json.jstr "EarlyBird"
  | AchievementType.entrepreneur => Json.jstr "Entrepreneur"
  | AchievementType.businessMogul => Json.jstr "BusinessMogul"
  | AchievementType.millionaire => Json.jstr "Millionaire"
  | AchievementType.perfectWeek => Json.jstr "PerfectWeek"
  | AchievementType.speedDemon => Json.jstr "SpeedDemon"
  | AchievementType.efficiency => Json.jstr "Efficiency"
  | AchievementType.marketMaster => Json.jstr "MarketMaster"
  | AchievementType.legendaryStatus => Json.jstr "LegendaryStatus"
  | AchievementType.customerFavorite => Json.jstr "CustomerFavorite"
  | AchievementType.trustedSeller => Json.jstr "TrustedSeller"
  | AchievementType.winterWinner => Json.jstr "WinterWinner"
  | AchievementType.seasonVeteran => Json.jstr "SeasonVeteran"
  | AchievementType.eventSurvivor => Json.jstr "EventSurvivor"
  | AchievementType.collector => Json.jstr "Collector"
  | AchievementType.diversifiedPortfolio => Json.jstr "DiversifiedPortfolio"
  | AchievementType.quickTurnaround => Json.jstr "QuickTurnaround"

/-- Deserialize `AchievementType`. -/
def AchievementType.fromJson (j : Json) : Option AchievementType :=
  match j with
  | Json.jstr "FirstSale" => some AchievementType.firstSale
  | Json.jstr "EarlyBird" => some AchievementType.earlyBird
  | Json.jstr "Entrepreneur" => some AchievementType.entrepreneur
  | Json.jstr "BusinessMogul" => some AchievementType.businessMogul
  | Json.jstr "Millionaire" => some AchievementType.millionaire
  | Json.jstr "PerfectWeek" => some AchievementType.perfectWeek
  | Json.jstr "SpeedDemon" => some AchievementType.speedDemon
  | Json.jstr "Efficiency" => some AchievementType.efficiency
  | Json.jstr "MarketMaster" => some AchievementType.marketMaster
  | Json.jstr "LegendaryStatus" => some AchievementType.legendaryStatus
  | Json.jstr "CustomerFavorite" => some AchievementType.customerFavorite
  | Json.jstr "TrustedSeller" => some AchievementType.trustedSeller
  | Json.jstr "WinterWinner" => some AchievementType.winterWinner
  | Json.jstr "SeasonVeteran" => some AchievementType.seasonVeteran
  | Json.jstr "EventSurvivor" => some AchievementType.eventSurvivor
  | Json.jstr "Collector" => some AchievementType.collector
  | Json.jstr "DiversifiedPortfolio" => some AchievementType.diversifiedPortfolio
  | Json.jstr "QuickTurnaround" => some AchievementType.quickTurnaround
  | _ => none

/-- Serialize `Achievement`. -/
def Achievement.toJson (a : Achievement) : Json :=
  Json.jobj
    [("achievement_type", a.achievement_type.toJson),
     ("name", Json.jstr a.name),
     ("description", Json.jstr a.description),
     ("unlocked", Json.jbool a.unlocked),
     ("unlock_date", encodeOptionWith (fun (n : ℕ) => Json.jint (n : ℤ)) a.unlock_date),
     ("progress", Json.jint a.progress),
     ("target", Json.jint a.target),
     ("reward_cash", Json.jint a.reward_cash)]

/-- Deserialize `Achievement`. -/
def Achievement.fromJson (j : Json) : Option Achievement := do
  let achievement_type ← j.getField "achievement_type" >>= AchievementType.fromJson
  let name ← j.getField "name" >>= decodeStr
  let description ← j.getField "description" >>= decodeStr
  let unlocked ← j.getField "unlocked" >>= decodeBool
  let unlock_date ← j.getField "unlock_date" >>= decodeOptionWith decodeNat
  let progress ← j.getField "progress" >>= decodeNat
  let target ← j.getField "target" >>= decodeNat
  let reward_cash ← j.getField "reward_cash" >>= decodeNat
  some { achievement_type := achievement_type, name := name, description := description,
         unlocked := unlocked, unlock_date := unlock_date, progress := progress,
         target := target, reward_cash := reward_cash }

/-- Serialize `AchievementTracker`. -/
def AchievementTracker.toJson (tr : AchievementTracker) : Json :=
  Json.jobj
    [("achievements", Json.jarr (tr.achievements.map Achievement.toJson)),
     ("total_unlocked", Json.jint tr.total_unlocked),
     ("recent_unlock", encodeOptionWith Json.jstr tr.recent_unlock),
     ("consecutive_perfect_days", Json.jint tr.consecutive_perfect_days),
     ("consecutive_efficiency_days", Json.jint tr.consecutive_efficiency_days),
     ("orders_today", Json.jint tr.orders_today),
     ("favorable_market_purchases", Json.jint tr.favorable_market_purchases),
     ("seasonal_winter_profit", Json.jint tr.seasonal_winter_profit),
     ("seasons_survived", Json.jarr (tr.seasons_survived.map Season.toJson)),
     ("events_survived", Json.jint tr.events_survived)]

/-- Deserialize `AchievementTracker`. -/
def AchievementTracker.fromJson (j : Json) : Option AchievementTracker := do
  let achievements ← j.getField "achievements" >>= decodeArr Achievement.fromJson
  let total_unlocked ← j.getField "total_unlocked" >>= decodeNat
  let recent_unlock ← j.getField "recent_unlock" >>= decodeOptionWith decodeStr
  let consecutive_perfect_days ← j.getField "consecutive_perfect_days" >>= decodeNat
  let consecutive_efficiency_days ← j.getField "consecutive_efficiency_days" >>= decodeNat
  let orders_today ← j.getField "orders_today" >>= decodeNat
  let favorable_market_purchases ← j.getField "favorable_market_purchases" >>= decodeNat
  let seasonal_winter_profit ← j.getField "seasonal_winter_profit" >>= decodeInt
  let seasons_survived ← j.getField "seasons_survived" >>= decodeArr Season.fromJson
  let events_survived ← j.getField "events_survived" >>= decodeNat
  some { achievements := achievements, total_unlocked := total_unlocked,
         recent_unlock := recent_unlock,
         consecutive_perfect_days := consecutive_perfect_days,
         consecutive_efficiency_days := consecutive_efficiency_days,
         orders_today := orders_today,
         favorable_market_purchases := favorable_market_purchases,
         seasonal_winter_profit := seasonal_winter_profit,
         seasons_survived := seasons_survived, events_survived := events_survived }

/-- Serialize `RandomEventType`. -/
def RandomEventType.toJson : RandomEventType → Json
  | RandomEventType.loyalCustomer => Json.jstr "LoyalCustomer"
  | RandomEventType.supplierDiscount => Json.jstr "SupplierDiscount"
  | RandomEventType.mediaAttention => Json.jstr "MediaAttention"
  | RandomEventType.luckyFind => Json.jstr "LuckyFind"
  | RandomEventType.techGlitch => Json.jstr "TechGlitch"
  | RandomEventType.cardTheft => Json.jstr "CardTheft"
  | RandomEventType.customerComplaint => Json.jstr "CustomerComplaint"
  | RandomEventType.supplierIssue => Json.jstr "SupplierIssue"
  | RandomEventType.marketCrash => Json.jstr "MarketCrash"
  | RandomEventType.regulationChange => Json.jstr "RegulationChange"
  | RandomEventType.businessOffer => Json.jstr "BusinessOffer"
  | RandomEventType.charityRequest => Json.jstr "CharityRequest"
  | RandomEventType.inventoryAudit => Json.jstr "InventoryAudit"
  | RandomEventType.competitorMeeting => Json.jstr "CompetitorMeeting"
  | RandomEventType.customerSurvey => Json.jstr "CustomerSurvey"

/-- Deserialize `RandomEventType`. -/
def RandomEventType.fromJson (j : Json) : Option RandomEventType :=
  match j with
  | Json.jstr "LoyalCustomer" => some RandomEventType.loyalCustomer
  | Json.jstr "SupplierDiscount" => some RandomEventType.supplierDiscount
  | Json.jstr "MediaAttention" => some RandomEventType.mediaAttention
  | Json.jstr "LuckyFind" => some RandomEventType.luckyFind
  | Json.jstr "TechGlitch" => some RandomEventType.techGlitch
  | Json.jstr "CardTheft" => some RandomEventType.cardTheft
  | Json.jstr "CustomerComplaint" => some RandomEventType.customerComplaint
  | Json.jstr "SupplierIssue" => some RandomEventType.supplierIssue
  | Json.jstr "MarketCrash" => some RandomEventType.marketCrash
  | Json.jstr "RegulationChange" => some RandomEventType.regulationChange
  | Json.jstr "BusinessOffer" => some RandomEventType.businessOffer
  | Json.jstr "CharityRequest" => some RandomEventType.charityRequest
  | Json.jstr "InventoryAudit" => some RandomEventType.inventoryAudit
  | Json.jstr "CompetitorMeeting" => some RandomEventType.competitorMeeting
  | Json.jstr "CustomerSurvey" => some RandomEventType.customerSurvey
  | _ => none

/-- Serialize a `(retailer, quantity change)` tuple as a two-element array. -/
def inventoryImpactToJson (p : String × ℤ) : Json :=
  Json.jarr [Json.jstr p.1, Json.jint p.2]

/-- Deserialize a `(retailer, quantity change)` tuple. -/
def inventoryImpactFromJson (j : Json) : Option (String × ℤ) :=
  match j with
  | Json.jarr [Json.jstr s, Json.jint n] => some (s, n)
  | _ => none

/-- Serialize `TempModifier`. -/
def TempModifier.toJson (m : TempModifier) : Json :=
  Json.jobj
    [("name", Json.jstr m.name),
     ("description", Json.jstr m.description),
     ("price_multiplier", Json.jrat m.price_multiplier),
     ("demand_multiplier", Json.jrat m.demand_multiplier),
     ("reputation_protection", Json.jbool m.reputation_protection),
     ("remaining_days", Json.jint m.remaining_days)]

/-- Deserialize `TempModifier`. -/
def TempModifier.fromJson (j : Json) : Option TempModifier := do
  let name ← j.getField "name" >>= decodeStr
  let description ← j.getField "description" >>= decodeStr
  let price_multiplier ← j.getField "price_multiplier" >>= decodeRat
  let demand_multiplier ← j.getField "demand_multiplier" >>= decodeRat
  let reputation_protection ← j.getField "reputation_protection" >>= decodeBool
  let remaining_days ← j.getField "remaining_days" >>= decodeNat
  some { name := name, description := description, price_multiplier := price_multiplier,
         demand_multiplier := demand_multiplier,
         reputation_protection := reputation_protection, remaining_days := remaining_days }

/-- Serialize `RandomEvent`. -/
def RandomEvent.toJson (e : RandomEvent) : Json :=
  Json.jobj
    [("event_type", e.event_type.toJson),
     ("title", Json.jstr e.title),
     ("description", Json.jstr e.description),
     ("choice_a", encodeOptionWith Json.jstr e.choice_a),
     ("choice_b", encodeOptionWith Json.jstr e.choice_b),
     ("choice_c", encodeOptionWith Json.jstr e.choice_c),
     ("auto_resolve", Json.jbool e.auto_resolve),
     ("cash_impact", Json.jint e.cash_impact),
     ("reputation_impact", Json.jint e.reputation_impact),
     ("inventory_impact", Json.jarr (e.inventory_impact.map inventoryImpactToJson)),
     ("duration_days", Json.jint e.duration_days),
     ("active", Json.jbool e.active)]

/-- Deserialize `RandomEvent`. -/
def RandomEvent.fromJson (j : Json) : Option RandomEvent := do
  let event_type ← j.getField "event_type" >>= RandomEventType.fromJson
  let title ← j.getField "title" >>= decodeStr
  let description ← j.getField "description" >>= decodeStr
  let choice_a ← j.getField "choice_a" >>= decodeOptionWith decodeStr
  let choice_b ← j.getField "choice_b" >>= decodeOptionWith decodeStr
  let choice_c ← j.getField "choice_c" >>= decodeOptionWith decodeStr
  let auto_resolve ← j.getField "auto_resolve" >>= decodeBool
  let cash_impact ← j.getField "cash_impact" >>= decodeInt
  let reputation_impact ← j.getField "reputation_impact" >>= decodeInt
  let inventory_impact ← j.getField "inventory_impact" >>= decodeArr inventoryImpactFromJson
  let duration_days ← j.getField "duration_days" >>= decodeNat
  let active ← j.getField "active" >>= decodeBool
  some { event_type := event_type, title := title, description := description,
         choice_a := choice_a, choice_b := choice_b, choice_c := choice_c,
         auto_resolve := auto_resolve, cash_impact := cash_impact,
         reputation_impact := reputation_impact, inventory_impact := inventory_impact,
         duration_days := duration_days, active := active }

/-- Serialize `RandomEventManager`. -/
def RandomEventManager.toJson (mgr : RandomEventManager) : Json :=
  Json.jobj
    [("active_event", encodeOptionWith RandomEvent.toJson mgr.active_event),
     ("next_event_in_days", Json.jint mgr.next_event_in_days),
     ("event_history", Json.jarr (mgr.event_history.map Json.jstr)),
     ("player_choice_pending", Json.jbool mgr.player_choice_pending),
     ("choice_deadline", Json.jint mgr.choice_deadline),
     ("temp_modifiers", Json.jarr (mgr.temp_modifiers.map TempModifier.toJson))]

/-- Deserialize `RandomEventManager`. -/
def RandomEventManager.fromJson (j : Json) : Option RandomEventManager := do
  let active_event ← j.getField "active_event" >>= decodeOptionWith RandomEvent.fromJson
  let next_event_in_days ← j.getField "next_event_in_days" >>= decodeNat
  let event_history ← j.getField "event_history" >>= decodeArr decodeStr
  let player_choice_pending ← j.getField "player_choice_pending" >>= decodeBool
  let choice_deadline ← j.getField "choice_deadline" >>= decodeNat
  let temp_modifiers ← j.getField "temp_modifiers" >>= decodeArr TempModifier.fromJson
  some { active_event := active_event, next_event_in_days := next_event_in_days,
         event_history := event_history, player_choice_pending := player_choice_pending,
         choice_deadline := choice_deadline, temp_modifiers := temp_modifiers }

/-- Serialize `BusinessAnalytics`. -/
def BusinessAnalytics.toJson (an : BusinessAnalytics) : Json :=
  Json.jobj
    [("total_revenue", Json.jint an.total_revenue),
     ("total_purchases", Json.jint an.total_purchases),
     ("orders_completed", Json.jint an.orders_completed),
     ("orders_expired", Json.jint an.orders_expired),
     ("best_day_revenue", Json.jint an.best_day_revenue),
     ("cards_sold", Json.jint an.cards_sold),
     ("cards_expired", Json.jint an.cards_expired),
     ("daily_revenues", Json.jarr (an.daily_revenues.map (fun (n : ℕ) => Json.jint (n : ℤ)))),
     ("profit_margins", Json.jarr (an.profit_margins.map Json.jrat))]

/-- Deserialize `BusinessAnalytics`. -/
def BusinessAnalytics.fromJson (j : Json) : Option BusinessAnalytics := do
  let total_revenue ← j.getField "total_revenue" >>= decodeNat
  let total_purchases ← j.getField "total_purchases" >>= decodeNat
  let orders_completed ← j.getField "orders_completed" >>= decodeNat
  let orders_expired ← j.getField "orders_expired" >>= decodeNat
  let best_day_revenue ← j.getField "best_day_revenue" >>= decodeNat
  let cards_sold ← j.getField "cards_sold" >>= decodeNat
  let cards_expired ← j.getField "cards_expired" >>= decodeNat
  let daily_revenues ← j.getField "daily_revenues" >>= decodeArr decodeNat
  let profit_margins ← j.getField "profit_margins" >>= decodeArr decodeRat
  some { total_revenue := total_revenue, total_purchases := total_purchases,
         orders_completed := orders_completed, orders_expired := orders_expired,
         best_day_revenue := best_day_revenue, cards_sold := cards_sold,
         cards_expired := cards_expired, daily_revenues := daily_revenues,
         profit_margins := profit_margins }

/-- Serialize `GameData` (`save_game`, src/main.rs:1829, up to the external
byte medium). -/
def GameData.save_game (g : GameData) : Json :=
  Json.jobj
    [("cash", Json.jint g.cash),
     ("reputation", Json.jint g.reputation),
     ("day", Json.jint g.day),
     ("hour", Json.jint g.hour),
     ("minute", Json.jint g.minute),
     ("recent_activities", Json.jarr (g.recent_activities.map Json.jstr)),
     ("inventory", Json.jarr (g.inventory.map InventoryItem.toJson)),
     ("customer_orders", Json.jarr (g.customer_orders.map CustomerOrder.toJson)),
     ("next_order_id", Json.jint g.next_order_id),
     ("analytics", g.analytics.toJson),
     ("market_conditions", g.market_conditions.toJson),
     ("achievements", g.achievements.toJson),
     ("random_events", g.random_events.toJson)]

/-- Deserialize `GameData` (`load_game`, src/main.rs:1835, up to the external
byte medium). -/
def GameData.load_game (j : Json) : Option GameData := do
  let cash ← j.getField "cash" >>= decodeNat
  let reputation ← j.getField "reputation" >>= decodeNat
  let day ← j.getField "day" >>= decodeNat
  let hour ← j.getField "hour" >>= decodeNat
  let minute ← j.getField "minute" >>= decodeNat
  let recent_activities ← j.getField "recent_activities" >>= decodeArr decodeStr
  let inventory ← j.getField "inventory" >>= decodeArr InventoryItem.fromJson
  let customer_orders ← j.getField "customer_orders" >>= decodeArr CustomerOrder.fromJson
  let next_order_id ← j.getField "next_order_id" >>= decodeNat
  let analytics ← j.getField "analytics" >>= BusinessAnalytics.fromJson
  let market_conditions ← j.getField "market_conditions" >>= MarketConditions.fromJson
  let achievements ← j.getField "achievements" >>= AchievementTracker.fromJson
  let random_events ← j.getField "random_events" >>= RandomEventManager.fromJson
  some { cash := cash, reputation := reputation, day := day, hour := hour,
         minute := minute, recent_activities := recent_activities,
         inventory := inventory, customer_orders := customer_orders,
         next_order_id := next_order_id, analytics := analytics,
         market_conditions := market_conditions, achievements := achievements,
         random_events := random_events }

/-- The account invariant of §3: reputation is an integer in `[1,5]`. -/
def repInv (g : GameData) : Prop :=
  1 ≤ g.reputation ∧ g.reputation ≤ 5

/-- Pointwise monotonicity between two achievement lists: same length, and
at every index the unlocked flag never goes from true to false and the
stored progress never decreases. -/
def achMono (l l' : List Achievement) : Prop :=
  l.length = l'.length ∧
  ∀ (i : ℕ) (a a' : Achievement), l[i]? = some a → l'[i]? = some a' →
    ((a.unlocked = true → a'.unlocked = true) ∧ a.progress ≤ a'.progress)

/-- A small concrete game state used to instantiate the theorems: the
standard opening account (cash 5000, reputation 3, day 1, 9:00) with empty
collections and both schedulers 5 days away from firing. -/
def baseState : GameData :=
  { cash := 5000
    reputation := 3
    day := 1
    hour := 9
    minute := 0
    recent_activities := []
    inventory := []
    customer_orders := []
    next_order_id := 1000
    analytics := BusinessAnalytics.new
    market_conditions :=
      { current_season := Season.spring
        active_events := []
        base_demand_modifier := 1
        next_event_in_days := 5 }
    achievements := AchievementTracker.new
    random_events :=
      { active_event := none
        next_event_in_days := 0
        event_history := []
        player_choice_pending := false
        choice_deadline := 0
        temp_modifiers := [] } }

/-- `baseState` with the narrative scheduler quiet for 5 more days. -/
def quietState : GameData :=
  { baseState with random_events := { baseState.random_events with next_event_in_days := 5 } }

/-- A state on day 15 whose narrative-event countdown has elapsed: the next
tick fires the `LoyalCustomer` auto event (day 15 % 15 = 0). -/
def tickDay15State : GameData :=
  { baseState with day := 15 }

/-- A concrete market event with remaining duration 1. -/
def testEventOne : MarketEvent :=
  MarketEvent.new "Test Event" "A test market event" none 1 1 1

/-- `testEventOne` with its remaining duration at 0. -/
def testEventZero : MarketEvent :=
  { testEventOne with remaining_days := 0 }

/-- A market state holding a single active event with remaining duration 1. -/
def marketRemaining1 : MarketConditions :=
  { current_season := Season.spring
    active_events := [testEventOne]
    base_demand_modifier := 1
    next_event_in_days := 5 }

/-- A market state holding a single active event with remaining duration 0. -/
def marketRemaining0 : MarketConditions :=
  { marketRemaining1 with active_events := [testEventZero] }

/-- An inventory of three Amazon $25 cards. -/
def amazonInventory : List InventoryItem :=
  [{ card := { retailer := "Amazon", denomination := 25, purchase_price := 20,
               days_until_expiration := 45 }, quantity := 3 }]

/-- An order for two Amazon $25 cards at $22 each. -/
def amazonOrder : CustomerOrder :=
  { id := 1
    customer_name := "Bob"
    retailer := "Amazon"
    denomination := 25
    quantity := 2
    offered_price_per_card := 22
    deadline_days := 3
    priority := OrderPriority.low }

/-- `quietState` holding `amazonInventory` and `amazonOrder`. -/
def fulfillState : GameData :=
  { quietState with inventory := amazonInventory, customer_orders := [amazonOrder] }

/-- `fulfillState` with the inventory emptied (the order cannot be met). -/
def fulfillStateEmpty : GameData :=
  { fulfillState with inventory := [] }

/-- `quietState` at 9:59, about to overflow the `u8` minute counter when
197 or more minutes are added. -/
def clockOverflowState : GameData :=
  { quietState with minute := 59 }

/-!  Theorems.  -/

theorem logPush_eq_take (msg : String) (acts : List String) :
    logPush msg acts = (msg :: acts).take 10 := by
  simp only [logPush]
  split
  · rfl
  · rename_i h
    exact (List.take_of_length_le (by omega)).symm

theorem logPush_length_le (msg : String) (acts : List String) :
    (logPush msg acts).length ≤ 10 := by
  rw [logPush_eq_take]
  exact List.length_take_le 10 (msg :: acts)

theorem improve_reputation_repInv (g : GameData) (reason : String) (h : repInv g) :
    repInv (g.improve_reputation reason) := by
  obtain ⟨h1, h5⟩ := h
  simp only [GameData.improve_reputation]
  split
  · rename_i hlt
    exact ⟨by show 1 ≤ g.reputation + 1; omega, by show g.reputation + 1 ≤ 5; omega⟩
  · exact ⟨h1, h5⟩

theorem decrease_reputation_repInv (g : GameData) (reason : String) (h : repInv g) :
    repInv (g.decrease_reputation reason) := by
  obtain ⟨h1, h5⟩ := h
  simp only [GameData.decrease_reputation]
  split
  · rename_i hgt
    exact ⟨by show 1 ≤ g.reputation - 1; omega, by show g.reputation - 1 ≤ 5; omega⟩
  · exact ⟨h1, h5⟩

theorem iterate_decrease_repInv (n : ℕ) (g : GameData) (h : repInv g) :
    repInv ((fun gg => GameData.decrease_reputation gg "order_expired")^[n] g) := by
  induction n generalizing g with
  | zero => simpa using h
  | succ k ih =>
    rw [Function.iterate_succ_apply]
    exact ih _ (decrease_reputation_repInv g _ h)

theorem generate_random_order_reputation (g : GameData) :
    (g.generate_random_order).reputation = g.reputation := rfl

theorem orderAgingStage_repInv (g : GameData) (h : repInv g) :
    repInv (g.orderAgingStage) := by
  simp only [GameData.orderAgingStage]
  split
  · exact iterate_decrease_repInv _ _ h
  · exact h

theorem repInv_of_eq (g g' : GameData) (hrep : g'.reputation = g.reputation)
    (h : repInv g) : repInv g' := by
  unfold repInv at h ⊢
  rw [hrep]
  exact h

theorem repInv_ite_generate (x : GameData) (c : Prop) [Decidable c] (hx : repInv x) :
    repInv (if c then x.generate_random_order else x) := by
  split
  · exact hx
  · exact hx

theorem process_order_aging_repInv (g : GameData) (h : repInv g) :
    repInv (g.process_order_aging) := by
  simp only [GameData.process_order_aging]
  exact repInv_ite_generate _ _ (orderAgingStage_repInv g h)

theorem tickInventoryStage_repInv (g : GameData) (h : repInv g) :
    repInv (g.tickInventoryStage) := by
  simp only [GameData.tickInventoryStage]
  split
  · exact h
  · exact h

set_option maxHeartbeats 1000000 in
theorem tick_reputation (g : GameData) :
    (g.process_daily_events).reputation
      = ((g.tickInventoryStage).process_order_aging).reputation := by
  dsimp only [GameData.process_daily_events]

theorem tick_repInv (g : GameData) (h : repInv g) :
    repInv (g.process_daily_events) := by
  have h2 := process_order_aging_repInv _ (tickInventoryStage_repInv g h)
  unfold repInv at h2 ⊢
  rw [tick_reputation]
  exact h2

theorem purchase_reputation (g : GameData) (s : ℕ) :
    (g.purchase_from_market s).reputation = g.reputation := by
  simp only [GameData.purchase_from_market, GameData.spend_money]
  split
  · rfl
  · split
    · rfl
    · rfl

theorem sell_reputation (g : GameData) (s : ℕ) :
    (g.sell_inventory_item s).reputation = g.reputation := by
  simp only [GameData.sell_inventory_item]
  split
  · rfl
  · split
    · rfl
    · rfl

theorem handle_choice_repInv (g : GameData) (choice : ℕ) (h : repInv g) :
    repInv (g.handle_random_event_choice choice) := by
  obtain ⟨h1, h5⟩ := h
  cases hae : g.random_events.active_event with
  | none =>
    simp only [GameData.handle_random_event_choice, RandomEventManager.make_choice, hae]
    exact ⟨h1, h5⟩
  | some event =>
    simp only [GameData.handle_random_event_choice, RandomEventManager.make_choice, hae]
    constructor
    · show 1 ≤ if _ ≠ 0 then _ else g.reputation
      split
      · split
        · omega
        · omega
      · omega
    · show (if _ ≠ 0 then _ else g.reputation) ≤ 5
      split
      · split
        · omega
        · omega
      · omega

theorem fulfill_repInv (g : GameData) (idx : ℕ) (h : repInv g) :
    repInv ((g.fulfill_order idx).1) := by
  cases ho : g.customer_orders[idx]? with
  | none =>
    simp only [GameData.fulfill_order, ho]
    exact h
  | some o =>
    simp only [GameData.fulfill_order, ho]
    split
    · exact h
    · split
      · exact improve_reputation_repInv _ _ (repInv_of_eq g _ rfl h)
      · exact improve_reputation_repInv _ _ (repInv_of_eq g _ rfl h)

theorem advance_time_repInv (g : GameData) (m : ℕ) (h : repInv g) :
    repInv (g.advance_time m) := by
  simp only [GameData.advance_time]
  split
  · split
    · exact tick_repInv _ (repInv_of_eq g _ rfl h)
    · exact repInv_of_eq g _ rfl h
  · split
    · exact tick_repInv _ (repInv_of_eq g _ rfl h)
    · exact repInv_of_eq g _ rfl h

theorem applyOp_repInv (g : GameData) (op : GameOp) (h : repInv g) :
    repInv (g.applyOp op) := by
  cases op with
  | advance m => exact advance_time_repInv g m h
  | tick => exact tick_repInv g h
  | orderAging => exact process_order_aging_repInv g h
  | fulfill i => exact fulfill_repInv g i h
  | purchase s => exact repInv_of_eq g _ (purchase_reputation g s) h
  | sell s => exact repInv_of_eq g _ (sell_reputation g s) h
  | resolveChoice c => exact handle_choice_repInv g c h

theorem runOps_repInv (ops : List GameOp) (g : GameData) (h : repInv g) :
    repInv (g.runOps ops) := by
  induction ops generalizing g with
  | nil => exact h
  | cons op rest ih =>
    simp only [GameData.runOps, List.foldl_cons] at *
    exact ih _ (applyOp_repInv g op h)

/-- C5: for every finite sequence of operations (clock advances, daily
ticks, order aging/expiration passes, order fulfillments, purchases, sales
and random-event choice resolutions) applied to a state whose reputation is
in `[1,5]`, the resulting reputation is still in `[1,5]`. -/
theorem reputation_bounds_over_operations (g : GameData) (ops : List GameOp)
    (h1 : 1 ≤ g.reputation) (h5 : g.reputation ≤ 5) :
    1 ≤ (g.runOps ops).reputation ∧ (g.runOps ops).reputation ≤ 5 :=
  runOps_repInv ops g ⟨h1, h5⟩

/-- Witness for C5 at a concrete state and operation sequence. -/
theorem reputation_bounds_over_operations_witness :
    1 ≤ quietState.reputation ∧ quietState.reputation ≤ 5 ∧
      (1 ≤ (quietState.runOps [GameOp.orderAging, GameOp.fulfill 0]).reputation ∧
        (quietState.runOps [GameOp.orderAging, GameOp.fulfill 0]).reputation ≤ 5) :=
  ⟨by decide, by decide,
    reputation_bounds_over_operations quietState [GameOp.orderAging, GameOp.fulfill 0]
      (by decide) (by decide)⟩

theorem improve_log_le (g : GameData) (reason : String)
    (h : g.recent_activities.length ≤ 10) :
    (g.improve_reputation reason).recent_activities.length ≤ 10 := by
  simp only [GameData.improve_reputation]
  split
  · exact logPush_length_le _ _
  · exact h

theorem decrease_log_le (g : GameData) (reason : String)
    (h : g.recent_activities.length ≤ 10) :
    (g.decrease_reputation reason).recent_activities.length ≤ 10 := by
  simp only [GameData.decrease_reputation]
  split
  · exact logPush_length_le _ _
  · exact h

theorem iterate_decrease_log_le (n : ℕ) (g : GameData)
    (h : g.recent_activities.length ≤ 10) :
    ((fun gg => GameData.decrease_reputation gg "order_expired")^[n] g).recent_activities.length
      ≤ 10 := by
  induction n generalizing g with
  | zero => exact h
  | succ k ih =>
    rw [Function.iterate_succ_apply]
    exact ih _ (decrease_log_le g _ h)

theorem generate_log_le (g : GameData) :
    (g.generate_random_order).recent_activities.length ≤ 10 := by
  dsimp only [GameData.generate_random_order]
  exact logPush_length_le _ _

theorem orderAgingStage_log_le (g : GameData) (h : g.recent_activities.length ≤ 10) :
    (g.orderAgingStage).recent_activities.length ≤ 10 := by
  simp only [GameData.orderAgingStage]
  split
  · exact iterate_decrease_log_le _ _ (logPush_length_le _ _)
  · exact h

theorem log_le_ite_generate (x : GameData) (c : Prop) [Decidable c]
    (hx : x.recent_activities.length ≤ 10) :
    (if c then x.generate_random_order else x).recent_activities.length ≤ 10 := by
  split
  · exact generate_log_le x
  · exact hx

theorem process_order_aging_log_le (g : GameData) (h : g.recent_activities.length ≤ 10) :
    (g.process_order_aging).recent_activities.length ≤ 10 := by
  simp only [GameData.process_order_aging]
  exact log_le_ite_generate _ _ (orderAgingStage_log_le g h)

set_option maxHeartbeats 1000000 in
theorem tick_log_le (g : GameData) :
    (g.process_daily_events).recent_activities.length ≤ 10 := by
  dsimp only [GameData.process_daily_events]
  exact logPush_length_le _ _

theorem fulfillSuccessBase_log_le (g : GameData) (order : CustomerOrder) (idx : ℕ) :
    (g.fulfillSuccessBase order idx).recent_activities.length ≤ 10 := by
  dsimp only [GameData.fulfillSuccessBase]
  exact logPush_length_le _ _

theorem fulfill_log_le (g : GameData) (idx : ℕ)
    (h : g.recent_activities.length ≤ 10) :
    ((g.fulfill_order idx).1).recent_activities.length ≤ 10 := by
  cases ho : g.customer_orders[idx]? with
  | none =>
    simp only [GameData.fulfill_order, ho]
    exact h
  | some o =>
    simp only [GameData.fulfill_order, ho]
    split
    · exact logPush_length_le _ _
    · split
      · exact improve_log_le _ _ (fulfillSuccessBase_log_le g o idx)
      · exact improve_log_le _ _ (fulfillSuccessBase_log_le g o idx)

theorem purchase_log_le (g : GameData) (s : ℕ)
    (h : g.recent_activities.length ≤ 10) :
    (g.purchase_from_market s).recent_activities.length ≤ 10 := by
  simp only [GameData.purchase_from_market, GameData.spend_money]
  split
  · exact h
  · split
    · exact logPush_length_le _ _
    · exact logPush_length_le _ _

theorem sell_log_le (g : GameData) (s : ℕ)
    (h : g.recent_activities.length ≤ 10) :
    (g.sell_inventory_item s).recent_activities.length ≤ 10 := by
  simp only [GameData.sell_inventory_item]
  split
  · exact h
  · split
    · exact h
    · exact logPush_length_le _ _

theorem handle_choice_log_le (g : GameData) (choice : ℕ)
    (h : g.recent_activities.length ≤ 10) :
    (g.handle_random_event_choice choice).recent_activities.length ≤ 10 := by
  cases hae : g.random_events.active_event with
  | none =>
    simp only [GameData.handle_random_event_choice, RandomEventManager.make_choice, hae]
    exact h
  | some event =>
    simp only [GameData.handle_random_event_choice, RandomEventManager.make_choice, hae]
    exact logPush_length_le _ _

theorem advance_log_le (g : GameData) (m : ℕ)
    (h : g.recent_activities.length ≤ 10) :
    (g.advance_time m).recent_activities.length ≤ 10 := by
  simp only [GameData.advance_time]
  split
  · split
    · exact tick_log_le _
    · exact h
  · split
    · exact tick_log_le _
    · exact h

theorem applyOp_log_le (g : GameData) (op : GameOp)
    (h : g.recent_activities.length ≤ 10) :
    (g.applyOp op).recent_activities.length ≤ 10 := by
  cases op with
  | advance m => exact advance_log_le g m h
  | tick => exact tick_log_le g
  | orderAging => exact process_order_aging_log_le g h
  | fulfill i => exact fulfill_log_le g i h
  | purchase s => exact purchase_log_le g s h
  | sell s => exact sell_log_le g s h
  | resolveChoice c => exact handle_choice_log_le g c h

theorem runOps_log_le (ops : List GameOp) (g : GameData)
    (h : g.recent_activities.length ≤ 10) :
    (g.runOps ops).recent_activities.length ≤ 10 := by
  induction ops generalizing g with
  | nil => exact h
  | cons op rest ih =>
    simp only [GameData.runOps, List.foldl_cons] at *
    exact ih _ (applyOp_log_le g op h)

/-- C8: after every complete operation (any player command or a full daily
tick) the activity log holds at most 10 entries; every log push keeps the
10 newest entries (entries are inserted at the front, and truncation takes
the first 10, dropping the oldest first). -/
theorem activity_log_capped (g : GameData) (ops : List GameOp)
    (h : g.recent_activities.length ≤ 10) :
    (g.runOps ops).recent_activities.length ≤ 10 ∧
      ∀ (msg : String) (acts : List String), logPush msg acts = (msg :: acts).take 10 :=
  ⟨runOps_log_le ops g h, fun msg acts => logPush_eq_take msg acts⟩

/-- Witness for C8 at a concrete state and operation sequence. -/
theorem activity_log_capped_witness :
    quietState.recent_activities.length ≤ 10 ∧
      (quietState.runOps [GameOp.tick, GameOp.purchase 0]).recent_activities.length ≤ 10 :=
  ⟨by decide,
    (activity_log_capped quietState [GameOp.tick, GameOp.purchase 0] (by decide)).1⟩

theorem decrease_clock (g : GameData) (r : String) :
    (g.decrease_reputation r).day = g.day ∧ (g.decrease_reputation r).hour = g.hour ∧
      (g.decrease_reputation r).minute = g.minute := by
  simp only [GameData.decrease_reputation]
  split
  · exact ⟨rfl, rfl, rfl⟩
  · exact ⟨rfl, rfl, rfl⟩

theorem iterate_decrease_clock (n : ℕ) (g : GameData) :
    ((fun gg => GameData.decrease_reputation gg "order_expired")^[n] g).day = g.day ∧
    ((fun gg => GameData.decrease_reputation gg "order_expired")^[n] g).hour = g.hour ∧
    ((fun gg => GameData.decrease_reputation gg "order_expired")^[n] g).minute = g.minute := by
  induction n generalizing g with
  | zero => exact ⟨rfl, rfl, rfl⟩
  | succ k ih =>
    rw [Function.iterate_succ_apply]
    obtain ⟨hd, hh, hm⟩ := ih (g.decrease_reputation "order_expired")
    obtain ⟨hd', hh', hm'⟩ := decrease_clock g "order_expired"
    exact ⟨hd.trans hd', hh.trans hh', hm.trans hm'⟩

theorem orderAgingStage_clock (g : GameData) :
    (g.orderAgingStage).day = g.day ∧ (g.orderAgingStage).hour = g.hour ∧
      (g.orderAgingStage).minute = g.minute := by
  simp only [GameData.orderAgingStage]
  split
  · exact iterate_decrease_clock _ _
  · exact ⟨rfl, rfl, rfl⟩

theorem clock_ite_generate (x : GameData) (c : Prop) [Decidable c] :
    (if c then x.generate_random_order else x).day = x.day ∧
    (if c then x.generate_random_order else x).hour = x.hour ∧
    (if c then x.generate_random_order else x).minute = x.minute := by
  split
  · exact ⟨rfl, rfl, rfl⟩
  · exact ⟨rfl, rfl, rfl⟩

theorem process_order_aging_clock (g : GameData) :
    (g.process_order_aging).day = g.day ∧ (g.process_order_aging).hour = g.hour ∧
      (g.process_order_aging).minute = g.minute := by
  obtain ⟨hd, hh, hm⟩ := orderAgingStage_clock g
  simp only [GameData.process_order_aging]
  exact ⟨(clock_ite_generate _ _).1.trans hd,
         (clock_ite_generate _ _).2.1.trans hh,
         (clock_ite_generate _ _).2.2.trans hm⟩

theorem tickInventoryStage_clock (g : GameData) :
    (g.tickInventoryStage).day = g.day ∧ (g.tickInventoryStage).hour = g.hour ∧
      (g.tickInventoryStage).minute = g.minute := by
  simp only [GameData.tickInventoryStage]
  split
  · exact ⟨rfl, rfl, rfl⟩
  · exact ⟨rfl, rfl, rfl⟩

set_option maxHeartbeats 1000000 in
theorem tick_clock (g : GameData) :
    (g.process_daily_events).day = g.day ∧ (g.process_daily_events).hour = g.hour ∧
      (g.process_daily_events).minute = g.minute := by
  obtain ⟨hd, hh, hm⟩ := process_order_aging_clock (g.tickInventoryStage)
  obtain ⟨hd', hh', hm'⟩ := tickInventoryStage_clock g
  refine ⟨?_, ?_, ?_⟩
  · dsimp only [GameData.process_daily_events]
    rw [hd, hd']
  · dsimp only [GameData.process_daily_events]
    rw [hh, hh']
  · dsimp only [GameData.process_daily_events]
    rw [hm, hm']

/-- C10: `advance(minutes)` carries minutes into hours and hours into days
exactly as the mathematical clock semantics prescribes, but only while
`minute + minutes` fits in the 8-bit minute counter; at 9:59 an advance of
197 minutes wraps the `u8` addition (59 + 197 = 256 ≡ 0) and the carry into
hours is lost. -/
theorem advance_time_clock_behaviour :
    (∀ (g : GameData) (m : ℕ),
        g.minute ≤ 59 → g.hour ≤ 23 → g.day < 4294967295 → g.minute + m ≤ 255 →
        ((g.advance_time m).day, (g.advance_time m).hour, (g.advance_time m).minute)
          = clockSpec g.day g.hour g.minute m) ∧
    (255 < clockOverflowState.minute + 197 ∧
      ((clockOverflowState.advance_time 197).day, (clockOverflowState.advance_time 197).hour,
        (clockOverflowState.advance_time 197).minute)
        ≠ clockSpec clockOverflowState.day clockOverflowState.hour
            clockOverflowState.minute 197) := by
  constructor
  · intro g m h59 h23 hday hov
    simp only [GameData.advance_time, clockSpec, u8wrap, u32add]
    have e1 : (g.minute + m) % 256 = g.minute + m := Nat.mod_eq_of_lt (by omega)
    rw [e1]
    simp only [Prod.mk.injEq]
    split
    · rename_i h60
      have e2 : (g.hour + (g.minute + m) / 60) % 256 = g.hour + (g.minute + m) / 60 :=
        Nat.mod_eq_of_lt (by omega)
      rw [e2]
      split
      · rename_i h24
        obtain ⟨hd, hh, hm⟩ := tick_clock
          { g with day := (g.day + (g.hour + (g.minute + m) / 60) / 24) % 4294967296,
                   hour := (g.hour + (g.minute + m) / 60) % 24,
                   minute := (g.minute + m) % 60 }
        rw [hd, hh, hm]
        refine ⟨?_, ?_, ?_⟩
        · show (g.day + (g.hour + (g.minute + m) / 60) / 24) % 4294967296
            = g.day + (g.hour + (g.minute + m) / 60) / 24
          exact Nat.mod_eq_of_lt (by omega)
        · rfl
        · rfl
      · rename_i h24
        exact ⟨by dsimp only; omega, by dsimp only; omega, rfl⟩
    · rename_i h60
      rw [if_neg (by omega)]
      exact ⟨by dsimp only; omega, by dsimp only; omega, by dsimp only; omega⟩
  · exact ⟨by decide, by decide⟩

/-- Witness for the universally quantified part of C10 at a concrete state. -/
theorem advance_time_clock_behaviour_witness :
    quietState.minute ≤ 59 ∧
      ((quietState.advance_time 30).day, (quietState.advance_time 30).hour,
        (quietState.advance_time 30).minute)
        = clockSpec quietState.day quietState.hour quietState.minute 30 :=
  ⟨by decide,
    advance_time_clock_behaviour.1 quietState 30 (by decide) (by decide) (by decide) (by decide)⟩

/-- C1 (evidence of the code bug): on day 15 the countdown has elapsed and
the daily tick fires the `LoyalCustomer` auto event, whose stated impacts
are +$2000 cash and +1 reputation; the event is announced and vanishes
(no active event remains), yet cash and reputation are unchanged — the
impacts are zeroed by `apply_choice(0)`'s default arm and the returned
values are discarded. -/
theorem auto_event_impacts_not_applied :
    (randomEventForDay 15).auto_resolve = true ∧
    (randomEventForDay 15).cash_impact = 2000 ∧
    (randomEventForDay 15).reputation_impact = 1 ∧
    "🎲 Random event: Loyal Customer Returns"
      ∈ (tickDay15State.process_daily_events).recent_activities ∧
    (tickDay15State.process_daily_events).random_events.active_event = none ∧
    (tickDay15State.process_daily_events).cash = tickDay15State.cash ∧
    (tickDay15State.process_daily_events).reputation = tickDay15State.reputation := by
  decide

/-- C2 counterexample: a market event whose remaining duration is exactly 1
at the start of a tick is NOT removed by that tick — it survives with
remaining duration 0 and no "ended" log line is produced. -/
theorem market_event_remaining1_not_removed :
    ((marketRemaining1.process_daily_events 3 []).1.active_events = [testEventZero]) ∧
    (marketRemaining1.process_daily_events 3 []).2 = [] := by
  decide

theorem ageMarketEvents_events (es : List MarketEvent) (acts : List String) :
    (ageMarketEvents es acts).1
      = es.filterMap (fun e =>
          if 0 < e.remaining_days then some { e with remaining_days := e.remaining_days - 1 }
          else none) := by
  induction es generalizing acts with
  | nil => rfl
  | cons e rest ih =>
    simp only [ageMarketEvents, List.filterMap_cons]
    split
    · rename_i hpos
      dsimp only
      rw [ih]
    · rename_i hpos
      dsimp only
      exact ih _

theorem ageMarketEvents_acts_mono (es : List MarketEvent) (acts : List String)
    (x : String) (hx : x ∈ acts) : x ∈ (ageMarketEvents es acts).2 := by
  induction es generalizing acts with
  | nil => exact hx
  | cons e rest ih =>
    simp only [ageMarketEvents]
    split
    · exact ih acts hx
    · exact ih _ (List.mem_cons_of_mem _ hx)

theorem ageMarketEvents_ended (es : List MarketEvent) (acts : List String)
    (e : MarketEvent) (he : e ∈ es) (h0 : e.remaining_days = 0) :
    marketEventEndedLine e.name ∈ (ageMarketEvents es acts).2 := by
  induction es generalizing acts with
  | nil => cases he
  | cons e' rest ih =>
    simp only [ageMarketEvents]
    rcases List.mem_cons.mp he with rfl | hmem
    · rw [if_neg (by omega)]
      exact ageMarketEvents_acts_mono _ _ _ (List.mem_cons_self _ _)
    · split
      · exact ih _ hmem
      · exact ih _ hmem

/-- C2 amended: in a daily tick, market events with remaining duration 0
at the start of the tick are removed, each prepending its "ended" log line;
an event with remaining duration 1 instead survives the tick with remaining
duration 0 (it is removed, with the log line, on the following tick), and
when the event countdown has elapsed the new palette event is appended. -/
theorem market_event_aging_amended (mc : MarketConditions) (day : ℕ) (acts : List String) :
    ((mc.process_daily_events day acts).1.active_events
      = mc.active_events.filterMap (fun e =>
          if 0 < e.remaining_days then some { e with remaining_days := e.remaining_days - 1 }
          else none)
        ++ (if mc.next_event_in_days = 0 then [marketEventForDay day] else [])) ∧
    (∀ e ∈ mc.active_events, e.remaining_days = 0 →
        marketEventEndedLine e.name ∈ (mc.process_daily_events day acts).2) := by
  simp only [MarketConditions.process_daily_events, MarketConditions.generate_random_event]
  constructor
  · split
    · rename_i hpos
      rw [if_neg (by omega), List.append_nil]
      exact ageMarketEvents_events _ _
    · rename_i hpos
      rw [if_pos (by omega)]
      dsimp only
      rw [ageMarketEvents_events]
  · intro e he h0
    split
    · exact ageMarketEvents_ended _ _ _ he h0
    · exact List.mem_cons_of_mem _ (ageMarketEvents_ended _ _ _ he h0)

/-- Witness for C2's amended statement at a concrete market state. -/
theorem market_event_aging_amended_witness :
    testEventZero ∈ marketRemaining0.active_events ∧
      marketEventEndedLine testEventZero.name
        ∈ (marketRemaining0.process_daily_events 3 []).2 :=
  ⟨by decide,
    (market_event_aging_amended marketRemaining0 3 []).2 testEventZero (by decide) (by decide)⟩

/-- C3 counterexample: on day 15 the narrative scheduler fires (the random
event is announced), and afterwards the countdown is `3 + 15 % 5 = 3`,
not the claimed `7 + 15 % 14 = 8`. -/
theorem narrative_reseed_counterexample :
    ((baseState.random_events.process_daily_events 15 []).2.1
        = ["🎲 Random event: Loyal Customer Returns"]) ∧
    ((baseState.random_events.process_daily_events 15 []).1.next_event_in_days = 3 + 15 % 5) ∧
    (3 + 15 % 5 : ℕ) ≠ 7 + 15 % 14 := by
  decide

/-- C3 amended: when the narrative scheduler fires on day `d`,
`generate_random_event` momentarily sets the countdown to `7 + (d % 14)`
but `process_daily_events` immediately overwrites it: after the tick the
narrative countdown is `3 + (d % 5)` (a 3-to-7-day window), which remains
distinct from the market scheduler's reseed of `5 + (d % 10)` (a 5-to-14-day
window). -/
theorem narrative_reseed_amended (mgr : RandomEventManager) (day : ℕ) (acts : List String)
    (hae : mgr.active_event = none) (hn : mgr.next_event_in_days = 0) :
    ((mgr.process_daily_events day acts).1.next_event_in_days = 3 + day % 5) ∧
    ((mgr.generate_random_event day).1.next_event_in_days = 7 + day % 14) ∧
    (∀ mc : MarketConditions, mc.next_event_in_days = 0 →
        (mc.process_daily_events day acts).1.next_event_in_days = 5 + day % 10) := by
  refine ⟨?_, ?_, ?_⟩
  · simp only [RandomEventManager.process_daily_events]
    rw [hae, hn]
    simp only [ite_self]
    split
    · rename_i hcontra
      omega
    · split
      · split
        · rfl
        · rfl
      · rename_i hcontra
        simp at hcontra
  · simp only [RandomEventManager.generate_random_event]
    split
    · rfl
    · rfl
  · intro mc hmc
    simp only [MarketConditions.process_daily_events]
    rw [hmc]
    simp

/-- Witness for C3's amended statement at a concrete manager state. -/
theorem narrative_reseed_amended_witness :
    baseState.random_events.active_event = none ∧
      baseState.random_events.next_event_in_days = 0 ∧
      (baseState.random_events.process_daily_events 15 []).1.next_event_in_days = 3 + 15 % 5 :=
  ⟨rfl, rfl, (narrative_reseed_amended baseState.random_events 15 [] rfl rfl).1⟩

/-- C6: with day 1, hour 9, reputation 3, next order id 1000 and a neutral
demand multiplier (in [0.8, 1.2]) for the selected retailer, the order
generator deterministically appends the order: catalog pair
`(1+9) % 5 = 0` → Amazon/$25, customer `(1000+1) % 8 = 1` → "Bob",
quantity `1 + 1 % 5 = 2`, final discount 0.90, offered price
`⌊25 × 0.90⌋ = 22` (deadline `2 + 1 % 5 = 3`, priority Low). -/
theorem generate_order_deterministic (g : GameData)
    (hd : g.day = 1) (hh : g.hour = 9) (hr : g.reputation = 3) (hi : g.next_order_id = 1000)
    (hlo : (8 : ℚ)/10 ≤ g.market_conditions.get_demand_multiplier "Amazon")
    (hhi : g.market_conditions.get_demand_multiplier "Amazon" ≤ 12/10) :
    orderFinalDiscount g.reputation (g.market_conditions.get_demand_multiplier "Amazon")
        = 9/10 ∧
    (g.generate_random_order).customer_orders
      = g.customer_orders ++
        [{ id := 1000, customer_name := "Bob", retailer := "Amazon", denomination := 25,
           quantity := 2, offered_price_per_card := 22, deadline_days := 3,
           priority := OrderPriority.low }] := by
  have hadj : orderDemandAdjustment (g.market_conditions.get_demand_multiplier "Amazon")
      = 0 := by
    unfold orderDemandAdjustment
    rw [if_neg (not_lt.mpr hhi), if_neg (not_lt.mpr hlo)]
  have h1' : orderFinalDiscount 3 (g.market_conditions.get_demand_multiplier "Amazon")
      = 9/10 := by
    unfold orderFinalDiscount
    rw [hadj]
    norm_num [orderDiscountPercentage]
  have h1 : orderFinalDiscount g.reputation
      (g.market_conditions.get_demand_multiplier "Amazon") = 9/10 := by
    rw [hr]; exact h1'
  refine ⟨h1, ?_⟩
  have hidx : u32add g.day g.hour % 5 = 0 := by
    rw [hd, hh]; decide
  have hcust : u32add g.next_order_id g.day % 8 = 1 := by
    rw [hd, hi]; decide
  have hratio : ratToU32 (25
      * orderFinalDiscount 3 (g.market_conditions.get_demand_multiplier "Amazon")) = 22 := by
    rw [h1']
    norm_num [ratToU32]
    decide
  simp only [GameData.generate_random_order, hidx, hcust, hd, hh, hr, hi]
  norm_num [availableCards, customerNames, u32add, hratio]

/-- Witness for C6 at a concrete state (fresh Spring market, demand 1). -/
theorem generate_order_deterministic_witness :
    ((8 : ℚ)/10 ≤ quietState.market_conditions.get_demand_multiplier "Amazon") ∧
    (quietState.market_conditions.get_demand_multiplier "Amazon" ≤ 12/10) ∧
    (quietState.generate_random_order).customer_orders
      = quietState.customer_orders ++
        [{ id := 1000, customer_name := "Bob", retailer := "Amazon", denomination := 25,
           quantity := 2, offered_price_per_card := 22, deadline_days := 3,
           priority := OrderPriority.low }] := by
  have hdm : quietState.market_conditions.get_demand_multiplier "Amazon" = 1 := by
    norm_num [quietState, baseState, MarketConditions.get_demand_multiplier,
      Season.retailer_bonus]
  refine ⟨?_, ?_,
    (generate_order_deterministic quietState rfl rfl rfl rfl ?_ ?_).2⟩ <;>
    rw [hdm] <;> norm_num

theorem matchingTotal_cons (it : InventoryItem) (rest : List InventoryItem)
    (r : String) (d : ℕ) :
    matchingTotal (it :: rest) r d
      = (if it.card.retailer = r ∧ it.card.denomination = d then it.quantity else 0)
        + matchingTotal rest r d := by
  by_cases h : it.card.retailer = r ∧ it.card.denomination = d
  · simp [matchingTotal, List.filter_cons, h]
  · simp [matchingTotal, List.filter_cons, h]

theorem takeFromInventory_zero (r : String) (d : ℕ) (inv : List InventoryItem) :
    takeFromInventory r d 0 inv = inv := by
  induction inv with
  | nil => rfl
  | cons it rest ih =>
    simp only [takeFromInventory]
    rw [if_neg (by simp), ih]

theorem matchingTotal_take (r : String) (d : ℕ) (inv : List InventoryItem) (n : ℕ)
    (h : n ≤ matchingTotal inv r d) :
    matchingTotal (takeFromInventory r d n inv) r d = matchingTotal inv r d - n := by
  induction inv generalizing n with
  | nil =>
    simp only [matchingTotal, List.filter_nil, List.map_nil, List.sum_nil] at h ⊢
    simp only [takeFromInventory, matchingTotal, List.filter_nil, List.map_nil,
      List.sum_nil]
    omega
  | cons it rest ih =>
    by_cases hm : it.card.retailer = r ∧ it.card.denomination = d
    · by_cases hn : 0 < n
      · simp only [takeFromInventory]
        rw [if_pos ⟨hm.1, hm.2, hn⟩]
        rw [matchingTotal_cons, if_pos hm] at h
        by_cases ht : min n it.quantity = it.quantity
        · rw [if_pos ht]
          rw [ih (n - min n it.quantity) (by omega)]
          rw [matchingTotal_cons, if_pos hm]
          omega
        · rw [if_neg ht]
          have hlt : n < it.quantity := by omega
          have hmin : min n it.quantity = n := by omega
          rw [hmin, Nat.sub_self, takeFromInventory_zero]
          rw [matchingTotal_cons, if_pos hm, matchingTotal_cons, if_pos hm]
          dsimp only
          omega
      · have hn0 : n = 0 := by omega
        subst hn0
        rw [takeFromInventory_zero]
        omega
    · simp only [takeFromInventory]
      rw [if_neg (by tauto)]
      rw [matchingTotal_cons, if_neg hm] at h ⊢
      rw [matchingTotal_cons, if_neg hm, ih n (by omega)]
      omega

theorem matchingQuantity_of_lt (inv : List InventoryItem) (r : String) (d : ℕ)
    (h : matchingTotal inv r d < 4294967296) :
    matchingQuantity inv r d = matchingTotal inv r d := by
  simp only [matchingQuantity]
  exact Nat.mod_eq_of_lt h

theorem improve_cash (g : GameData) (r : String) :
    (g.improve_reputation r).cash = g.cash := by
  simp only [GameData.improve_reputation]
  split
  · rfl
  · rfl

theorem improve_inventory (g : GameData) (r : String) :
    (g.improve_reputation r).inventory = g.inventory := by
  simp only [GameData.improve_reputation]
  split
  · rfl
  · rfl

theorem improve_orders (g : GameData) (r : String) :
    (g.improve_reputation r).customer_orders = g.customer_orders := by
  simp only [GameData.improve_reputation]
  split
  · rfl
  · rfl

theorem ite_improve_cash (x : GameData) (c : Prop) [Decidable c] :
    (if c then x.improve_reputation "fast_fulfillment"
     else x.improve_reputation "order_fulfilled").cash = x.cash := by
  split
  · exact improve_cash x _
  · exact improve_cash x _

theorem ite_improve_inventory (x : GameData) (c : Prop) [Decidable c] :
    (if c then x.improve_reputation "fast_fulfillment"
     else x.improve_reputation "order_fulfilled").inventory = x.inventory := by
  split
  · exact improve_inventory x _
  · exact improve_inventory x _

theorem ite_improve_orders (x : GameData) (c : Prop) [Decidable c] :
    (if c then x.improve_reputation "fast_fulfillment"
     else x.improve_reputation "order_fulfilled").customer_orders = x.customer_orders := by
  split
  · exact improve_orders x _
  · exact improve_orders x _

/-- C4: for an order `O` at a valid index of the order book with quantity
`q` and offered price `p` per card, with no `u32` overflow in `cash + q*p`
nor in the matching-inventory sum (the program accumulates it in a wrapping
`u32`, so the check only reflects the true total below `2^32`):
if the total matching-(retailer, denomination) inventory quantity is at
least `q`, fulfilling succeeds, removes the order from the book, increases
cash by exactly `q*p`, and decreases the matching inventory quantity by
exactly `q`; if the matching quantity is less than `q`, the call returns
false and cash, inventory and the order book are unchanged. -/
theorem fulfill_order_correct (g : GameData) (idx : ℕ) (o : CustomerOrder)
    (ho : g.customer_orders[idx]? = some o)
    (hcash : g.cash + o.quantity * o.offered_price_per_card < 4294967296)
    (hinv : matchingTotal g.inventory o.retailer o.denomination < 4294967296) :
    (o.quantity ≤ matchingTotal g.inventory o.retailer o.denomination →
      (g.fulfill_order idx).2 = true ∧
      (g.fulfill_order idx).1.cash = g.cash + o.quantity * o.offered_price_per_card ∧
      matchingTotal (g.fulfill_order idx).1.inventory o.retailer o.denomination
        = matchingTotal g.inventory o.retailer o.denomination - o.quantity ∧
      (g.fulfill_order idx).1.customer_orders = g.customer_orders.eraseIdx idx) ∧
    (matchingTotal g.inventory o.retailer o.denomination < o.quantity →
      (g.fulfill_order idx).2 = false ∧
      (g.fulfill_order idx).1.cash = g.cash ∧
      (g.fulfill_order idx).1.inventory = g.inventory ∧
      (g.fulfill_order idx).1.customer_orders = g.customer_orders) := by
  have hw := matchingQuantity_of_lt g.inventory o.retailer o.denomination hinv
  constructor
  · intro hQ
    have hcan : g.can_fulfill_order o = true := by
      simp only [GameData.can_fulfill_order, decide_eq_true_eq]
      rw [hw]
      exact hQ
    simp only [GameData.fulfill_order, ho, hcan]
    rw [if_neg (by simp)]
    refine ⟨rfl, ?_, ?_, ?_⟩
    · rw [ite_improve_cash]
      show u32add g.cash o.total_offered = g.cash + o.quantity * o.offered_price_per_card
      have hm : o.offered_price_per_card * o.quantity
          = o.quantity * o.offered_price_per_card := Nat.mul_comm _ _
      simp only [u32add, CustomerOrder.total_offered, u32mul, hm]
      omega
    · rw [ite_improve_inventory]
      exact matchingTotal_take o.retailer o.denomination g.inventory o.quantity hQ
    · rw [ite_improve_orders]
      rfl
  · intro hlt
    have hcan : g.can_fulfill_order o = false := by
      simp only [GameData.can_fulfill_order, decide_eq_false_iff_not]
      rw [hw]
      omega
    simp only [GameData.fulfill_order, ho, hcan]
    rw [if_pos trivial]
    exact ⟨rfl, rfl, rfl, rfl⟩

/-- Witness for C4 at a concrete state (both fulfillable and unfulfillable
cases, through the two halves of the theorem). -/
theorem fulfill_order_correct_witness :
    (amazonOrder.quantity
        ≤ matchingTotal fulfillState.inventory amazonOrder.retailer amazonOrder.denomination ∧
      (fulfillState.fulfill_order 0).2 = true ∧
      (fulfillState.fulfill_order 0).1.cash
        = fulfillState.cash + amazonOrder.quantity * amazonOrder.offered_price_per_card) ∧
    (matchingTotal fulfillStateEmpty.inventory amazonOrder.retailer amazonOrder.denomination
        < amazonOrder.quantity ∧
      (fulfillStateEmpty.fulfill_order 0).2 = false ∧
      (fulfillStateEmpty.fulfill_order 0).1.cash = fulfillStateEmpty.cash) := by
  have h1 := (fulfill_order_correct fulfillState 0 amazonOrder (by decide) (by decide)
    (by decide)).1 (by decide)
  have h2 := (fulfill_order_correct fulfillStateEmpty 0 amazonOrder (by decide) (by decide)
    (by decide)).2 (by decide)
  exact ⟨⟨by decide, h1.1, h1.2.1⟩, ⟨by decide, h2.1, h2.2.1⟩⟩

theorem achMono_refl (l : List Achievement) : achMono l l := by
  refine ⟨rfl, fun i a a' ha ha' => ?_⟩
  rw [ha] at ha'
  cases ha'
  exact ⟨fun h => h, le_refl _⟩

theorem achMono_trans {l1 l2 l3 : List Achievement}
    (h12 : achMono l1 l2) (h23 : achMono l2 l3) : achMono l1 l3 := by
  refine ⟨h12.1.trans h23.1, fun i x z hx hz => ?_⟩
  have hi1 : i < l1.length := by
    by_contra hc
    rw [List.getElem?_eq_none (by omega)] at hx
    cases hx
  have hi2 : i < l2.length := by
    rw [← h12.1]
    exact hi1
  have hy : l2[i]? = some l2[i] := List.getElem?_eq_getElem hi2
  have p1 := h12.2 i x _ hx hy
  have p2 := h23.2 i _ z hy hz
  exact ⟨fun hu => p2.1 (p1.1 hu), le_trans p1.2 p2.2⟩

theorem achMono_cons (a a' : Achievement) (l l' : List Achievement)
    (h1 : a.unlocked = true → a'.unlocked = true) (h2 : a.progress ≤ a'.progress)
    (h3 : achMono l l') : achMono (a :: l) (a' :: l') := by
  refine ⟨by simpa using h3.1, fun i x y hx hy => ?_⟩
  cases i with
  | zero =>
    simp only [List.getElem?_cons_zero, Option.some.injEq] at hx hy
    subst hx
    subst hy
    exact ⟨h1, h2⟩
  | succ k =>
    simp only [List.getElem?_cons_succ] at hx hy
    exact h3.2 k x y hx hy

theorem checkUnlockFirst_mono (t : AchievementType) (p d : ℕ) (l : List Achievement) :
    achMono l (checkUnlockFirst t p d l).1 := by
  induction l with
  | nil => exact achMono_refl []
  | cons a rest ih =>
    simp only [checkUnlockFirst]
    split
    · split
      · dsimp only
        exact achMono_cons a _ rest rest (fun _ => rfl) (le_max_left _ _) (achMono_refl rest)
      · dsimp only
        exact achMono_cons a _ rest rest (fun hu => hu) (le_max_left _ _) (achMono_refl rest)
    · dsimp only
      exact achMono_cons a a _ _ (fun hu => hu) (le_refl _) ih

theorem unlockFirst_mono (t : AchievementType) (d : ℕ) (l : List Achievement) :
    achMono l (unlockFirst t d l).1 := by
  induction l with
  | nil => exact achMono_refl []
  | cons a rest ih =>
    simp only [unlockFirst]
    split
    · exact achMono_cons a _ rest rest (fun _ => rfl) (le_refl _) (achMono_refl rest)
    · dsimp only
      exact achMono_cons a a _ _ (fun hu => hu) (le_refl _) ih

theorem check_and_unlock_achievements (tr : AchievementTracker) (t : AchievementType)
    (p d : ℕ) (acts : List String) :
    ((tr.check_and_unlock t p d acts).1).achievements =
      (checkUnlockFirst t p d tr.achievements).1 := by
  cases hc : (checkUnlockFirst t p d tr.achievements).2 with
  | none => simp [AchievementTracker.check_and_unlock, hc]
  | some a2 => simp [AchievementTracker.check_and_unlock, hc]

theorem check_and_unlock_mono (tr : AchievementTracker) (t : AchievementType)
    (p d : ℕ) (acts : List String) :
    achMono tr.achievements ((tr.check_and_unlock t p d acts).1).achievements := by
  rw [check_and_unlock_achievements]
  exact checkUnlockFirst_mono t p d tr.achievements

theorem check_and_unlock_mono_of (base : List Achievement) (x : AchievementTracker)
    (hx : x.achievements = base) (t : AchievementType) (p d : ℕ) (acts : List String) :
    achMono base ((x.check_and_unlock t p d acts).1).achievements := by
  rw [← hx]
  exact check_and_unlock_mono x t p d acts

theorem unlockDirect_mono (tr : AchievementTracker) (t : AchievementType) (d : ℕ) :
    achMono tr.achievements ((tr.unlockDirect t d).achievements) := by
  cases hu : (unlockFirst t d tr.achievements).2 with
  | none =>
    simp only [AchievementTracker.unlockDirect, hu]
    exact achMono_refl _
  | some name =>
    simp only [AchievementTracker.unlockDirect, hu]
    exact unlockFirst_mono t d tr.achievements

theorem achMono_unlock_ite (base : List Achievement) (x : AchievementTracker)
    (hx : x.achievements = base) (c : Prop) [Decidable c] (t : AchievementType) (day : ℕ) :
    achMono base ((if c then x.unlockDirect t day else x).achievements) := by
  split
  · rw [← hx]
    exact unlockDirect_mono x t day
  · rw [← hx]
    exact achMono_refl _

theorem check_cash_mono (tr : AchievementTracker) (cash day : ℕ) (acts : List String) :
    achMono tr.achievements ((tr.check_cash_achievements cash day acts).1).achievements := by
  simp only [AchievementTracker.check_cash_achievements]
  exact achMono_trans (check_and_unlock_mono _ _ _ _ _)
    (achMono_trans (check_and_unlock_mono _ _ _ _ _) (check_and_unlock_mono _ _ _ _ _))

theorem check_order_mono (tr : AchievementTracker) (t r day : ℕ) (acts : List String) :
    achMono tr.achievements
      ((tr.check_order_achievements t r day acts).1).achievements := by
  simp only [AchievementTracker.check_order_achievements]
  exact achMono_trans (check_and_unlock_mono _ _ _ _ _)
    (achMono_trans (check_and_unlock_mono _ _ _ _ _)
      (achMono_trans (check_and_unlock_mono _ _ _ _ _)
        (achMono_trans (check_and_unlock_mono _ _ _ _ _) (check_and_unlock_mono _ _ _ _ _))))

theorem check_inventory_mono (tr : AchievementTracker) (inv : List InventoryItem)
    (day : ℕ) (acts : List String) :
    achMono tr.achievements
      ((tr.check_inventory_achievements inv day acts).1).achievements := by
  simp only [AchievementTracker.check_inventory_achievements]
  exact achMono_trans (check_and_unlock_mono _ _ _ _ _) (check_and_unlock_mono _ _ _ _ _)

theorem check_seasonal_mono (tr : AchievementTracker) (season : Season)
    (wp : ℤ) (day : ℕ) (acts : List String) :
    achMono tr.achievements
      ((tr.check_seasonal_achievements season wp day acts).1).achievements := by
  simp only [AchievementTracker.check_seasonal_achievements]
  split <;> split <;>
    first
      | (refine achMono_trans (check_and_unlock_mono_of _ _ ?_ _ _ _ _) (check_and_unlock_mono _ _ _ _ _); rfl)
      | (refine check_and_unlock_mono_of _ _ ?_ _ _ _ _; rfl)

theorem record_order_completion_mono (tr : AchievementTracker) (day : ℕ) :
    achMono tr.achievements ((tr.record_order_completion day).achievements) := by
  simp only [AchievementTracker.record_order_completion]
  refine achMono_unlock_ite _ _ ?_ _ _ _
  rfl

theorem record_market_purchase_mono (tr : AchievementTracker) (m : ℚ) (day : ℕ)
    (acts : List String) :
    achMono tr.achievements ((tr.record_market_purchase m day acts).1).achievements := by
  simp only [AchievementTracker.record_market_purchase]
  split
  · refine check_and_unlock_mono_of _ _ ?_ _ _ _ _
    rfl
  · exact achMono_refl _

theorem processDailyPerfect_mono (tr : AchievementTracker) (c e day : ℕ) :
    achMono tr.achievements ((tr.processDailyPerfect c e day).achievements) := by
  simp only [AchievementTracker.processDailyPerfect]
  refine achMono_unlock_ite _ _ ?_ _ _ _
  split <;> rfl

theorem processDailyEfficiency_mono (tr : AchievementTracker)
    (an : BusinessAnalytics) (day : ℕ) :
    achMono tr.achievements ((tr.processDailyEfficiency an day).achievements) := by
  simp only [AchievementTracker.processDailyEfficiency]
  refine achMono_unlock_ite tr.achievements _ ?_ _ _ _
  split
  · split
    · rfl
    · rfl
  · rfl

theorem process_daily_achievements_mono (tr : AchievementTracker) (c e : ℕ)
    (an : BusinessAnalytics) (day : ℕ) :
    achMono tr.achievements
      ((tr.process_daily_achievements c e an day).achievements) := by
  simp only [AchievementTracker.process_daily_achievements]
  exact achMono_trans (processDailyPerfect_mono tr c e day)
    (processDailyEfficiency_mono _ an day)

theorem record_event_survival_mono (tr : AchievementTracker) (day : ℕ)
    (acts : List String) :
    achMono tr.achievements ((tr.record_event_survival day acts).1).achievements := by
  simp only [AchievementTracker.record_event_survival]
  refine check_and_unlock_mono_of _ _ ?_ _ _ _ _
  rfl

theorem trackerApplyOp_mono (tr : AchievementTracker) (op : TrackerOp) :
    achMono tr.achievements ((tr.applyOp op).achievements) := by
  cases op with
  | checkAndUnlock t p d => exact check_and_unlock_mono tr t p d []
  | checkCash c d => exact check_cash_mono tr c d []
  | checkOrders t r d => exact check_order_mono tr t r d []
  | checkInventory inv d => exact check_inventory_mono tr inv d []
  | checkSeasonal s w d => exact check_seasonal_mono tr s w d []
  | recordOrderCompletion d => exact record_order_completion_mono tr d
  | recordMarketPurchase m d => exact record_market_purchase_mono tr m d []
  | processDaily c e an d => exact process_daily_achievements_mono tr c e an d
  | recordEventSurvival d => exact record_event_survival_mono tr d []

theorem trackerRunOps_mono (ops : List TrackerOp) (tr : AchievementTracker) :
    achMono tr.achievements ((tr.runOps ops).achievements) := by
  induction ops generalizing tr with
  | nil => exact achMono_refl _
  | cons op rest ih =>
    exact achMono_trans (trackerApplyOp_mono tr op) (ih (tr.applyOp op))

/-- C7: achievement progress is monotonic.  Over any finite sequence of the
tracker update calls the program makes (`check_and_unlock`, the cash / order /
inventory / seasonal checkers, `record_order_completion`,
`record_market_purchase`, `process_daily_achievements`,
`record_event_survival`), each achievement's `unlocked` flag never reverts
from true to false and its stored `progress` never decreases, regardless of
the progress values passed. -/
theorem achievement_progress_monotonic (tr : AchievementTracker)
    (ops : List TrackerOp) (i : ℕ) (a a' : Achievement)
    (ha : tr.achievements[i]? = some a)
    (ha' : (tr.runOps ops).achievements[i]? = some a') :
    (a.unlocked = true → a'.unlocked = true) ∧ a.progress ≤ a'.progress :=
  (trackerRunOps_mono ops tr).2 i a a' ha ha'

theorem achievement_progress_monotonic_witness :
    ((Achievement.new AchievementType.entrepreneur "Entrepreneur"
        "Accumulate $10,000 in cash" 10000 1000).unlocked = true →
      ({ achievement_type := AchievementType.entrepreneur
         name := "Entrepreneur"
         description := "Accumulate $10,000 in cash"
         unlocked := true
         unlock_date := some 1
         progress := 10000
         target := 10000
         reward_cash := 1000 } : Achievement).unlocked = true) ∧
    (Achievement.new AchievementType.entrepreneur "Entrepreneur"
        "Accumulate $10,000 in cash" 10000 1000).progress ≤
      ({ achievement_type := AchievementType.entrepreneur
         name := "Entrepreneur"
         description := "Accumulate $10,000 in cash"
         unlocked := true
         unlock_date := some 1
         progress := 10000
         target := 10000
         reward_cash := 1000 } : Achievement).progress :=
  achievement_progress_monotonic AchievementTracker.new
    [TrackerOp.checkAndUnlock AchievementType.entrepreneur 10000 1,
     TrackerOp.checkAndUnlock AchievementType.entrepreneur 5 2] 2 _ _
    (by decide) (by decide)

theorem decodeNat_natCast (n : ℕ) : decodeNat (Json.jint (n : ℤ)) = some n := by
  simp [decodeNat]

theorem decodeListWith_map (d : Json → Option α) (e : α → Json)
    (h : ∀ x, d (e x) = some x) (l : List α) :
    decodeListWith d (l.map e) = some l := by
  induction l with
  | nil => rfl
  | cons x rest ih => simp [decodeListWith, h, ih]

theorem decodeArr_map (d : Json → Option α) (e : α → Json)
    (h : ∀ x, d (e x) = some x) (l : List α) :
    decodeArr d (Json.jarr (l.map e)) = some l := by
  simp [decodeArr, decodeListWith_map d e h]

theorem decodeOptionWith_not_null (d : Json → Option α) (j : Json)
    (hj : j ≠ Json.null) : decodeOptionWith d j = (d j).map some := by
  cases j with
  | null => exact absurd rfl hj
  | jbool b => rfl
  | jint n => rfl
  | jrat q => rfl
  | jstr s => rfl
  | jarr xs => rfl
  | jobj fs => rfl

theorem decodeOptionWith_encode (d : Json → Option α) (e : α → Json)
    (h : ∀ x, d (e x) = some x) (hn : ∀ x, e x ≠ Json.null) (o : Option α) :
    decodeOptionWith d (encodeOptionWith e o) = some o := by
  cases o with
  | none => rfl
  | some x =>
    show decodeOptionWith d (e x) = some (some x)
    rw [decodeOptionWith_not_null d (e x) (hn x), h x]
    rfl

theorem decodeOptionWith_str (o : Option String) :
    decodeOptionWith decodeStr (encodeOptionWith Json.jstr o) = some o :=
  decodeOptionWith_encode decodeStr Json.jstr (fun _ => rfl) (fun _ h => by cases h) o

theorem decodeOptionWith_nat (o : Option ℕ) :
    decodeOptionWith decodeNat (encodeOptionWith (fun (n : ℕ) => Json.jint (n : ℤ)) o) =
      some o :=
  decodeOptionWith_encode decodeNat (fun (n : ℕ) => Json.jint (n : ℤ))
    decodeNat_natCast (fun _ h => by cases h) o

theorem giftCard_roundtrip (c : GiftCard) : GiftCard.fromJson c.toJson = some c := by
  simp [GiftCard.toJson, GiftCard.fromJson, Json.getField, lookupField,
    decodeNat_natCast, decodeStr]

theorem inventoryItem_roundtrip (it : InventoryItem) :
    InventoryItem.fromJson it.toJson = some it := by
  simp [InventoryItem.toJson, InventoryItem.fromJson, Json.getField, lookupField,
    decodeNat_natCast, giftCard_roundtrip]

theorem orderPriority_roundtrip (p : OrderPriority) :
    OrderPriority.fromJson p.toJson = some p := by
  cases p <;> rfl

theorem customerOrder_roundtrip (o : CustomerOrder) :
    CustomerOrder.fromJson o.toJson = some o := by
  simp [CustomerOrder.toJson, CustomerOrder.fromJson, Json.getField, lookupField,
    decodeNat_natCast, decodeStr, orderPriority_roundtrip]

theorem season_roundtrip (s : Season) : Season.fromJson s.toJson = some s := by
  cases s <;> rfl

theorem marketEvent_roundtrip (e : MarketEvent) :
    MarketEvent.fromJson e.toJson = some e := by
  simp [MarketEvent.toJson, MarketEvent.fromJson, Json.getField, lookupField,
    decodeNat_natCast, decodeStr, decodeRat, decodeOptionWith_str]

theorem marketConditions_roundtrip (mc : MarketConditions) :
    MarketConditions.fromJson mc.toJson = some mc := by
  simp [MarketConditions.toJson, MarketConditions.fromJson, Json.getField, lookupField,
    decodeNat_natCast, decodeRat, season_roundtrip,
    decodeArr_map MarketEvent.fromJson MarketEvent.toJson marketEvent_roundtrip]

theorem achievementType_roundtrip (t : AchievementType) :
    AchievementType.fromJson t.toJson = some t := by
  cases t <;> rfl

theorem achievement_roundtrip (a : Achievement) :
    Achievement.fromJson a.toJson = some a := by
  simp [Achievement.toJson, Achievement.fromJson, Json.getField, lookupField,
    decodeNat_natCast, decodeStr, decodeBool, decodeOptionWith_nat,
    achievementType_roundtrip]

theorem achievementTracker_roundtrip (tr : AchievementTracker) :
    AchievementTracker.fromJson tr.toJson = some tr := by
  simp [AchievementTracker.toJson, AchievementTracker.fromJson, Json.getField, lookupField,
    decodeNat_natCast, decodeInt, decodeOptionWith_str,
    decodeArr_map Achievement.fromJson Achievement.toJson achievement_roundtrip,
    decodeArr_map Season.fromJson Season.toJson season_roundtrip]

theorem randomEventType_roundtrip (t : RandomEventType) :
    RandomEventType.fromJson t.toJson = some t := by
  cases t <;> rfl

theorem inventoryImpact_roundtrip (p : String × ℤ) :
    inventoryImpactFromJson (inventoryImpactToJson p) = some p := by
  cases p with
  | mk s n => rfl

theorem tempModifier_roundtrip (m : TempModifier) :
    TempModifier.fromJson m.toJson = some m := by
  simp [TempModifier.toJson, TempModifier.fromJson, Json.getField, lookupField,
    decodeNat_natCast, decodeStr, decodeRat, decodeBool]

theorem randomEvent_roundtrip (e : RandomEvent) :
    RandomEvent.fromJson e.toJson = some e := by
  simp [RandomEvent.toJson, RandomEvent.fromJson, Json.getField, lookupField,
    decodeNat_natCast, decodeStr, decodeInt, decodeBool, decodeOptionWith_str,
    randomEventType_roundtrip,
    decodeArr_map inventoryImpactFromJson inventoryImpactToJson inventoryImpact_roundtrip]

theorem decodeOptionWith_randomEvent (o : Option RandomEvent) :
    decodeOptionWith RandomEvent.fromJson (encodeOptionWith RandomEvent.toJson o) = some o :=
  decodeOptionWith_encode _ _ randomEvent_roundtrip
    (fun x h => by simp [RandomEvent.toJson] at h) o

theorem randomEventManager_roundtrip (mgr : RandomEventManager) :
    RandomEventManager.fromJson mgr.toJson = some mgr := by
  simp [RandomEventManager.toJson, RandomEventManager.fromJson, Json.getField, lookupField,
    decodeNat_natCast, decodeBool, decodeOptionWith_randomEvent,
    decodeArr_map decodeStr Json.jstr (fun _ => rfl),
    decodeArr_map TempModifier.fromJson TempModifier.toJson tempModifier_roundtrip]

theorem businessAnalytics_roundtrip (an : BusinessAnalytics) :
    BusinessAnalytics.fromJson an.toJson = some an := by
  simp [BusinessAnalytics.toJson, BusinessAnalytics.fromJson, Json.getField, lookupField,
    decodeNat_natCast,
    decodeArr_map decodeNat (fun (n : ℕ) => Json.jint (n : ℤ)) decodeNat_natCast,
    decodeArr_map decodeRat Json.jrat (fun _ => rfl)]

/-- C9: save/load round-trip.  Deserializing the serialized snapshot of any
game state returns `some` state equal to the original — in particular equal
in cash, day, hour, minute, reputation, activity-log contents, inventory
entries, and order-book contents. -/
theorem save_load_roundtrip (g : GameData) :
    GameData.load_game (GameData.save_game g) = some g := by
  simp [GameData.save_game, GameData.load_game, Json.getField, lookupField,
    decodeNat_natCast,
    decodeArr_map decodeStr Json.jstr (fun _ => rfl),
    decodeArr_map InventoryItem.fromJson InventoryItem.toJson inventoryItem_roundtrip,
    decodeArr_map CustomerOrder.fromJson CustomerOrder.toJson customerOrder_roundtrip,
    businessAnalytics_roundtrip, marketConditions_roundtrip,
    achievementTracker_roundtrip, randomEventManager_roundtrip]

end GiftCardEmpire
